import Mathlib

/-! rocket-cli: device-authorization login, token store and logout

A shallow embedding of `src/server/src/cli/commands/login.js` and
`src/server/src/cli/commands/logout.js`.

Conventions of the embedding

* A JavaScript value that is `undefined` or a string is an `Option String`;
  truthiness is `truthy`, `a || b` is `jsOr`.
* A call of the auth client (`authClient.device.code`, `authClient.device.token`,
  `authClient.getSession`, `authClient.signOut`) either returns the pair
  `{ data, error }` or throws: `Reply`.  The answers of the token endpoint are a
  list, the k-th element answering the k-th attempt.
* Seconds and milliseconds are natural numbers.
* `process.exit(c)` ends the run: nothing after it is executed.
* Every observable action is appended to an event log, so that "no network call
  was made" or "exactly n attempts" are statements about that log.  Console
  output that carries no control flow (banner lines, debug dumps, the cosmetic
  spinner of `loginAction`) is not logged.
* The token file `~/.better-auth/token.json` is the only part of the disk that
  is tracked.  Its text is represented by what `JSON.parse` makes of it.
-/

namespace RocketCli

/-! ## JavaScript values -/

/-- JavaScript truthiness of a value that is `undefined` or a string. -/
def truthy : Option String → Bool
  | some s => s != ""
  | none => false

/-- The operator `a || b` on values that are `undefined` or a string. -/
def jsOr (a b : Option String) : Option String :=
  if truthy a then a else b

/-- Template-literal rendering of a value that is `undefined` or a string. -/
def jsStr : Option String → String
  | some s => s
  | none => "undefined"

/-- The object read or written as a token: the payload of the token endpoint
(`data`) and the object kept in `token.json` have the same four fields, each of
which may be missing. -/
structure TokenRecord where
  access_token : Option String
  token_type : Option String
  scope : Option String
  created_at : Option String
  deriving DecidableEq, Repr

/-- The `error` object of an auth-client answer. -/
structure ApiError where
  error : Option String
  error_description : Option String
  message : Option String
  status : Option Nat
  deriving DecidableEq, Repr

/-- Outcome of awaiting an auth-client call: the call returns
`{ data, error }`, or it throws (`message` is `some m` for an `Error` with message
`m`, `none` for a thrown value that is not an `Error`). -/
inductive Reply (α : Type) where
  | returns (data : Option α) (error : Option ApiError)
  | throws (message : Option String)
  deriving DecidableEq, Repr

/-- The `data` of a device-code answer (login.js lines 111-118). -/
structure DeviceAuthorization where
  device_code : String
  user_code : String
  verification_uri : Option String
  verification_uri_complete : Option String
  interval : Option Nat
  expires_in : Nat
  deriving DecidableEq, Repr

/-- The `user` of a session. -/
structure User where
  name : Option String
  email : Option String
  deriving DecidableEq, Repr

/-- The `data` of a session answer. -/
structure Session where
  user : Option User
  deriving DecidableEq, Repr

/-- Answer of the user to a `confirm` prompt; `cancelled` is the value for which
`isCancel` holds. -/
inductive Answer where
  | yes
  | no
  | cancelled
  deriving DecidableEq, Repr

/-- Observable actions of a run, in the order in which they happen. -/
inductive Event where
  | setTimeout (ms : Nat)
  | deviceToken (deviceCode clientId : String)
  | deviceCode (clientId scope : String)
  | getSession (authorization : String)
  | signOut (authorization : String)
  | createAuthClient (baseURL : String)
  | readFile
  | mkdir
  | writeFile
  | unlink
  | confirm (message : String)
  | openBrowser (url : String)
  | loggerError (message : String)
  | loggerWarn (message : String)
  | outro (message : String)
  | cancel (message : String)
  | resolve
  | processExit (code : Nat)
  deriving DecidableEq, Repr

/-- Whether the event is a request sent to the server. -/
def Event.isNetwork : Event → Bool
  | .deviceToken _ _ => true
  | .deviceCode _ _ => true
  | .getSession _ => true
  | .signOut _ => true
  | _ => false

/-- Whether the event is a token-endpoint request (one poll attempt). -/
def Event.isAttempt : Event → Bool
  | .deviceToken _ _ => true
  | _ => false

/-- Whether the event schedules a wait. -/
def Event.isWait : Event → Bool
  | .setTimeout _ => true
  | _ => false

/-- Whether the event writes to the token store. -/
def Event.isStoreWrite : Event → Bool
  | .mkdir => true
  | .writeFile => true
  | .unlink => true
  | _ => false

/-- Number of poll attempts in a log. -/
def attempts (log : List Event) : Nat :=
  log.countP Event.isAttempt

/-- Number of scheduled waits in a log. -/
def waits (log : List Event) : Nat :=
  log.countP Event.isWait

/-! ## pollForToken (login.js lines 194-270) -/

/-- The variables of `pollForToken` that `poll` closes over, and the log. -/
structure PollState where
  pollingInterval : Nat
  dots : Nat
  spinnerText : String
  isSpinning : Bool
  log : List Event
  deriving DecidableEq, Repr

/-- What one execution of `poll` ends with. -/
inductive PollStep where
  | resolved (data : TokenRecord) (s : PollState)
  | exited (code : Nat) (s : PollState)
  | scheduled (s : PollState)
  deriving DecidableEq, Repr

/-- The text `".".repeat(n)`. -/
def repeatChar (c : Char) (n : Nat) : String :=
  String.mk (List.replicate n c)

/-- Lines 207-211: the animated dots, and the spinner is started when it is
not spinning. -/
def pollSpinner (s : PollState) : PollState :=
  let dots := (s.dots + 1) % 4
  { s with
    dots := dots
    spinnerText := "Polling for authorization" ++ repeatChar '.' dots ++ repeatChar ' ' (3 - dots)
    isSpinning := true }

/-- Lines 226/241/246/251/257: `spinner.stop()`. -/
def spinnerStop (s : PollState) : PollState :=
  { s with isSpinning := false }

/-- Appends events to the log of a poll state. -/
def PollState.emit (s : PollState) (es : List Event) : PollState :=
  { s with log := s.log ++ es }

/-- Line 264 and line 268: `setTimeout(poll, pollingInterval * 1000)`. -/
def schedule (s : PollState) : PollState :=
  s.emit [.setTimeout (s.pollingInterval * 1000)]

/-- Lines 235-238: the case `"slow_down"`. -/
def slowDown (s : PollState) : PollState :=
  let pollingInterval := s.pollingInterval + 5
  { s with
    pollingInterval := pollingInterval
    spinnerText := "Slowing down polling to " ++ toString pollingInterval ++ "s" }

/-- Lines 230-254: the `switch (error.error)`. -/
def pollError (s : PollState) (error : ApiError) : PollStep :=
  if error.error = some "authorization_pending" then
    .scheduled (schedule s)
  else if error.error = some "slow_down" then
    .scheduled (schedule (slowDown s))
  else if error.error = some "access_denied" then
    .exited 1 ((spinnerStop s).emit
      [.loggerError "Access was denied by the user", .processExit 1])
  else if error.error = some "expired_token" then
    .exited 1 ((spinnerStop s).emit
      [.loggerError "The device code has expired. Please try again.", .processExit 1])
  else
    .exited 1 ((spinnerStop s).emit
      [.loggerError ("Error: " ++ jsStr error.error_description), .processExit 1])

/-- Lines 205-265: one execution of `poll`, given what the token endpoint
answers to the request it sends. -/
def poll (deviceCode clientId : String) (s : PollState) (reply : Reply TokenRecord) :
    PollStep :=
  let s := (pollSpinner s).emit [.deviceToken deviceCode clientId]
  match reply with
  | .throws message =>
    .exited 1 ((spinnerStop s).emit
      [.loggerError ("Network error: " ++ (message.getD "Unknown error")), .processExit 1])
  | .returns data error =>
    match data with
    | some d =>
      if truthy d.access_token then
        .resolved d ((spinnerStop s).emit [.resolve])
      else
        match error with
        | some e => pollError s e
        | none => .scheduled (schedule s)
    | none =>
      match error with
      | some e => pollError s e
      | none => .scheduled (schedule s)

/-- What `pollForToken` has come to once the given answers are used up. -/
inductive PollResult where
  | resolved (data : TokenRecord) (s : PollState)
  | exited (code : Nat) (s : PollState)
  | polling (s : PollState)
  deriving DecidableEq, Repr

/-- The state carried by a poll result. -/
def PollResult.state : PollResult → PollState
  | .resolved _ s => s
  | .exited _ s => s
  | .polling s => s

/-- The timer loop: each answer of the token endpoint is consumed by one
execution of `poll`; a scheduled `poll` runs on the next answer. -/
def pollLoop (deviceCode clientId : String) :
    PollState → List (Reply TokenRecord) → PollResult
  | s, [] => .polling s
  | s, reply :: rest =>
    match poll deviceCode clientId s reply with
    | .resolved d s1 => .resolved d s1
    | .exited c s1 => .exited c s1
    | .scheduled s1 => pollLoop deviceCode clientId s1 rest

/-- Lines 200-202: the initial values of the variables of `pollForToken`. -/
def pollInit (initialInterval : Nat) (log : List Event) : PollState :=
  { pollingInterval := initialInterval
    dots := 0
    spinnerText := ""
    isSpinning := false
    log := log }

/-- Lines 194-270: `pollForToken` on the answers of the token endpoint, with the
log of the caller so far. -/
def pollForToken (deviceCode clientId : String) (initialInterval : Nat)
    (replies : List (Reply TokenRecord)) (log : List Event) : PollResult :=
  pollLoop deviceCode clientId (schedule (pollInit initialInterval log)) replies

/-! ## Runs: state, exceptions and process exit -/

/-- The token file as `JSON.parse` sees its text: a text that parses to the
given object, or a text on which `JSON.parse` throws. -/
inductive FileText where
  | json (value : TokenRecord)
  | malformed
  deriving DecidableEq, Repr

/-- `JSON.stringify(tokenData, null, 2)`: the text that parses back to
`tokenData` (the round-trip law of the JavaScript runtime). -/
def jsonStringify (tokenData : TokenRecord) : FileText :=
  .json tokenData

/-- The tracked part of the disk: the token file (`none`: it does not exist)
and whether `fs.readFile`, `fs.mkdir(CONFIG_DIR)`, `fs.writeFile` and
`fs.unlink` are permitted on it.  The four permissions are independent of each
other: reading and writing depend on the mode of the file, creating the directory
and unlinking depend on the directories above it. -/
structure Disk where
  file : Option FileText
  readable : Bool
  mkdirOk : Bool
  writable : Bool
  removable : Bool
  deriving DecidableEq, Repr

/-- What a run is made of: the disk and the log of events so far. -/
structure World where
  disk : Disk
  log : List Event
  deriving DecidableEq, Repr

/-- Appends events to the log of a world. -/
def World.emit (w : World) (es : List Event) : World :=
  { w with log := w.log ++ es }

/-- Ways in which a piece of code does not complete normally: a thrown value
(`some m`: an `Error` with message `m`), `process.exit(code)`, or a poller that
is still scheduled when the answers of the token endpoint are used up. -/
inductive Stop where
  | thrown (message : Option String)
  | exit (code : Nat)
  | polling
  deriving DecidableEq, Repr

/-- An `async` computation: from a world to its completion (`Except.ok`) or the
way it stopped, and the world at that point. -/
def Js (α : Type) : Type :=
  World → Except Stop α × World

/-- Normal completion with a value. -/
def Js.pure {α : Type} (a : α) : Js α :=
  fun w => (.ok a, w)

/-- Sequencing: what stops the first part stops the whole. -/
def Js.bind {α β : Type} (m : Js α) (f : α → Js β) : Js β :=
  fun w =>
    match m w with
    | (.ok a, w1) => f a w1
    | (.error e, w1) => (.error e, w1)

instance : Monad Js where
  pure := Js.pure
  bind := Js.bind

/-- The statement `throw`. -/
def Js.throw {α : Type} (message : Option String) : Js α :=
  fun w => (.error (.thrown message), w)

/-- The call `process.exit(code)`: logged, and nothing runs after it. -/
def Js.exit {α : Type} (code : Nat) : Js α :=
  fun w => (.error (.exit code), w.emit [.processExit code])

/-- Logs events. -/
def Js.emit (es : List Event) : Js Unit :=
  fun w => (.ok (), w.emit es)

/-- The statement `try body catch (err) handler`: only thrown values are
caught, a process exit is not. -/
def Js.tryCatch {α : Type} (body : Js α) (handler : Option String → Js α) : Js α :=
  fun w =>
    match body w with
    | (.error (.thrown message), w1) => handler message w1
    | r => r

/-- The expression `err instanceof Error ? err.message : "Unknown error"`. -/
def errMessage (err : Option String) : String :=
  err.getD "Unknown error"

/-! ## File-system and JSON primitives -/

/-- The call `fs.readFile(TOKEN_FILE, "utf-8")`. -/
def fsReadFile : Js FileText :=
  fun w =>
    let w := w.emit [.readFile]
    match w.disk.file with
    | none => (.error (.thrown (some "ENOENT")), w)
    | some text =>
      if w.disk.readable then (.ok text, w) else (.error (.thrown (some "EACCES")), w)

/-- The call `JSON.parse(data)`. -/
def jsonParse (data : FileText) : Js TokenRecord :=
  match data with
  | .json value => Js.pure value
  | .malformed => Js.throw (some "SyntaxError")

/-- The call `fs.mkdir(CONFIG_DIR, recursive)`. -/
def fsMkdir : Js Unit :=
  fun w =>
    let w := w.emit [.mkdir]
    if w.disk.mkdirOk then (.ok (), w) else (.error (.thrown (some "EACCES")), w)

/-- The call `fs.writeFile(TOKEN_FILE, text, "utf-8")`. -/
def fsWriteFile (text : FileText) : Js Unit :=
  fun w =>
    let w := w.emit [.writeFile]
    if w.disk.writable then
      (.ok (), { w with disk := { w.disk with file := some text } })
    else
      (.error (.thrown (some "EACCES")), w)

/-- The call `fs.unlink(TOKEN_FILE)`. -/
def fsUnlink : Js Unit :=
  fun w =>
    let w := w.emit [.unlink]
    match w.disk.file with
    | none => (.error (.thrown (some "ENOENT")), w)
    | some _ =>
      if w.disk.removable then
        (.ok (), { w with disk := { w.disk with file := none } })
      else
        (.error (.thrown (some "EACCES")), w)

/-! ## The token store (login.js lines 272-298, logout.js lines 18-34) -/

/-- Lines 272-289 of login.js: `storeToken(token)`, called at time `now`
(`new Date().toISOString()`). -/
def storeToken (now : String) (token : TokenRecord) : Js Unit :=
  Js.tryCatch
    (do
      fsMkdir
      let tokenData : TokenRecord :=
        { access_token := token.access_token
          token_type := jsOr token.token_type (some "Bearer")
          scope := token.scope
          created_at := some now }
      fsWriteFile (jsonStringify tokenData))
    (fun _ => Js.emit [.loggerWarn "Failed to store authentication token locally"])

/-- Lines 291-298 of login.js and lines 18-25 of logout.js (the same text):
`getStoredToken()`; `none` is `null`. -/
def getStoredToken : Js (Option TokenRecord) :=
  Js.tryCatch
    (do
      let data ← fsReadFile
      let value ← jsonParse data
      pure (some value))
    (fun _ => pure none)

/-- Lines 27-34 of logout.js: `deleteStoredToken()`. -/
def deleteStoredToken : Js Bool :=
  Js.tryCatch
    (do
      fsUnlink
      pure true)
    (fun _ => pure false)

/-! ## Calls to collaborators -/

/-- The constant `DEMO_URL`. -/
def DEMO_URL : String := "http://localhost:3005"

/-- The call `confirm(message)` of the prompt library, answered by the user. -/
def confirm (message : String) (answer : Answer) : Js Answer :=
  fun w => (.ok answer, w.emit [.confirm message])

/-- The call `createAuthClient(baseURL)`, which may throw. -/
def createAuthClient (baseURL : String) (throws : Bool) : Js Unit :=
  fun w =>
    let w := w.emit [.createAuthClient baseURL]
    if throws then (.error (.thrown (some "createAuthClient failed")), w) else (.ok (), w)

/-- An awaited auth-client call, logged as `ev`, with the given outcome. -/
def request {α : Type} (ev : Event) (reply : Reply α) : Js (Option α × Option ApiError) :=
  fun w =>
    let w := w.emit [ev]
    match reply with
    | .returns data error => (.ok (data, error), w)
    | .throws message => (.error (.thrown message), w)

/-- The call `open(url)`, which may throw. -/
def openBrowser (url : String) (throws : Bool) : Js Unit :=
  fun w =>
    let w := w.emit [.openBrowser url]
    if throws then (.error (.thrown (some "open failed")), w) else (.ok (), w)

/-- The expression `await pollForToken(...)` inside a run: the promise resolves
with the payload, or the process has exited, or the poller is still scheduled. -/
def awaitPollForToken (deviceCode clientId : String) (initialInterval : Nat)
    (replies : List (Reply TokenRecord)) : Js TokenRecord :=
  fun w =>
    match pollForToken deviceCode clientId initialInterval replies w.log with
    | .resolved data s => (.ok data, { w with log := s.log })
    | .exited code s => (.error (.exit code), { w with log := s.log })
    | .polling s => (.error .polling, { w with log := s.log })

/-! ## loginAction (login.js lines 22-192) -/

/-- Everything `loginAction` reads from outside: its options, the environment
variable, the answers of the user, and what the collaborators do.  `CLIENT_ID` is
the constant of line 18, read from `process.env.GITHUB_CLIENT_ID`. -/
structure LoginEnv where
  serverUrl : Option String
  clientId : Option String
  CLIENT_ID : Option String
  shouldReauth : Answer
  createAuthClientThrows : Bool
  deviceCode : Reply DeviceAuthorization
  shouldOpen : Answer
  openThrows : Bool
  tokenReplies : List (Reply TokenRecord)
  now : String
  session : Reply Session
  deriving DecidableEq, Repr

/-- The expression
`session?.user?.name || session?.user?.email || "User"`. -/
def displayName (session : Option Session) : String :=
  let user := session.bind Session.user
  jsStr (jsOr (jsOr (user.bind User.name) (user.bind User.email)) (some "User"))

/-- Lines 139-183 of login.js: polling, storing the token, the session lookup
and the success message.  The value `token` that the promise resolves with is an
object, so the test `if (token)` of line 153 succeeds. -/
def loginPoll (env : LoginEnv) (clientId : String) (data : DeviceAuthorization) : Js Unit := do
  let interval := data.interval.getD 5
  let token ← awaitPollForToken data.device_code clientId interval env.tokenReplies
  storeToken env.now token
  let (session, _) ← request (.getSession ("Bearer " ++ jsStr token.access_token)) env.session
  Js.emit [.outro ("✅ Demo login successful! Logged in as " ++ displayName session)]

/-- Lines 81-183 of login.js: the body of the `try`. -/
def loginTry (env : LoginEnv) (clientId : String) : Js Unit := do
  let (data, error) ← request (.deviceCode clientId "openid profile email") env.deviceCode
  match error, data with
  | none, some data =>
    let shouldOpen ← confirm "Open browser automatically?" env.shouldOpen
    if shouldOpen = .yes then
      let urlToOpen := jsOr data.verification_uri_complete data.verification_uri
      openBrowser (jsStr urlToOpen) env.openThrows
      loginPoll env clientId data
    else
      loginPoll env clientId data
  | error, _ =>
    Js.emit [.loggerError ("Failed to request device authorization: " ++
      jsStr (jsOr (jsOr (error.bind ApiError.error_description) (error.bind ApiError.message))
        (some "Unknown error")))]
    Js.exit 1

/-- Lines 184-191 of login.js: the `catch (err)` of `loginAction`. -/
def loginCatch (err : Option String) : Js Unit := do
  Js.emit [.loggerError ("Login failed: " ++ errMessage err)]
  Js.exit 1

/-- Lines 70-191 of login.js: the auth client is created, then the `try` with
its `catch`. -/
def loginFlow (env : LoginEnv) (serverUrl clientId : String) : Js Unit := do
  createAuthClient serverUrl env.createAuthClientThrows
  Js.tryCatch (loginTry env clientId) loginCatch

/-- Lines 22-192 of login.js: `loginAction(opts)`.  In the prompt of line 60 the
apostrophe is written as the escape `\x27`. -/
def loginAction (env : LoginEnv) : Js Unit := do
  let serverUrl := jsStr (jsOr env.serverUrl (some DEMO_URL))
  let clientId := jsOr env.clientId env.CLIENT_ID
  if !truthy clientId then
    Js.emit [.loggerError "CLIENT_ID is not set in .env file"]
    Js.exit 1
  else
    let existingToken ← getStoredToken
    if existingToken.isSome then
      let shouldReauth ← confirm "You\x27re already logged in. Do you want to log in again?"
        env.shouldReauth
      if shouldReauth ≠ .yes then
        Js.emit [.cancel "Login cancelled"]
        Js.exit 0
      else
        loginFlow env serverUrl (jsStr clientId)
    else
      loginFlow env serverUrl (jsStr clientId)

/-! ## logoutAction (logout.js lines 36-132) -/

/-- Everything `logoutAction` reads from outside. -/
structure LogoutEnv where
  serverUrl : Option String
  force : Bool
  createAuthClientThrows : Bool
  session : Reply Session
  shouldLogout : Answer
  signOut : Reply Unit
  deriving DecidableEq, Repr

/-- Lines 50-70 of logout.js: the user name shown in the prompt. -/
def logoutUserName (env : LogoutEnv) (serverUrl : String) (tokenData : TokenRecord) :
    Js String :=
  Js.tryCatch
    (do
      createAuthClient serverUrl env.createAuthClientThrows
      let (session, _) ← request (.getSession ("Bearer " ++ jsStr tokenData.access_token))
        env.session
      match session.bind Session.user with
      | some user => pure (jsStr (jsOr (jsOr user.name user.email) (some "User")))
      | none => pure "User")
    (fun _ => pure "User")

/-- Lines 88-131 of logout.js: the outer `try` and its `catch`. -/
def logoutTry (env : LogoutEnv) (serverUrl userName : String) (tokenData : TokenRecord) :
    Js Unit :=
  Js.tryCatch
    (do
      createAuthClient serverUrl env.createAuthClientThrows
      Js.tryCatch
        (do
          let _ ← request (.signOut ("Bearer " ++ jsStr tokenData.access_token)) env.signOut
          pure ())
        (fun _ => pure ())
      let deleted ← deleteStoredToken
      if deleted then
        Js.emit [.outro ("✅ Successfully logged out " ++ userName)]
      else
        Js.emit [.outro "⚠️  Logout completed with warnings"])
    (fun err => do
      Js.emit [.loggerError ("Logout failed: " ++ errMessage err)]
      let _ ← deleteStoredToken
      Js.exit 1)

/-- Lines 36-132 of logout.js: `logoutAction(opts)`. -/
def logoutAction (env : LogoutEnv) : Js Unit := do
  let serverUrl := jsStr (jsOr env.serverUrl (some DEMO_URL))
  let force := env.force
  let tokenData ← getStoredToken
  match tokenData with
  | none => Js.exit 0
  | some tokenData =>
    let userName ← logoutUserName env serverUrl tokenData
    if !force then
      let shouldLogout ← confirm ("Are you sure you want to log out? (" ++ userName ++ ")")
        env.shouldLogout
      if shouldLogout ≠ .yes then
        Js.emit [.cancel "Logout cancelled"]
        Js.exit 0
      else
        logoutTry env serverUrl userName tokenData
    else
      logoutTry env serverUrl userName tokenData

/-- A run from a disk and an empty log. -/
def run {α : Type} (m : Js α) (disk : Disk) : Except Stop α × World :=
  m { disk := disk, log := [] }

/-! ## Vocabulary of the claims -/

/-- The expression `data?.access_token`. -/
def accessTokenOf (data : Option TokenRecord) : Option String :=
  data.bind TokenRecord.access_token

/-- The answer is an error with the given code and carries no access token. -/
def Reply.isError (code : String) : Reply TokenRecord → Bool
  | .returns data (some e) => !truthy (accessTokenOf data) && e.error == some code
  | _ => false

/-- The answer is the error `authorization_pending`. -/
def Reply.isPending (r : Reply TokenRecord) : Bool :=
  r.isError "authorization_pending"

/-- The answer is the error `slow_down`. -/
def Reply.isSlowDown (r : Reply TokenRecord) : Bool :=
  r.isError "slow_down"

/-- The answer carries neither an access token nor an error object. -/
def Reply.isSilent : Reply TokenRecord → Bool
  | .returns data none => !truthy (accessTokenOf data)
  | _ => false

/-- The answer is an error without an access token whose code is neither
`authorization_pending` nor `slow_down` (`access_denied`, `expired_token`, any
other code, or no code at all). -/
def Reply.isFatal : Reply TokenRecord → Bool
  | .returns data (some e) =>
    !truthy (accessTokenOf data) && e.error != some "authorization_pending"
      && e.error != some "slow_down"
  | _ => false

/-- The answers after which the poller is still polling. -/
def Reply.keepsPolling (r : Reply TokenRecord) : Bool :=
  r.isPending || r.isSlowDown || r.isSilent

/-- Number of `process.exit` calls in a log. -/
def exits (log : List Event) : Nat :=
  log.countP (fun e => match e with
    | .processExit _ => true
    | _ => false)

/-- The state of the poller when it sends its request: lines 207-223. -/
def requesting (deviceCode clientId : String) (s : PollState) : PollState :=
  (pollSpinner s).emit [.deviceToken deviceCode clientId]

/-- Events that `pollForToken` itself produces. -/
def Event.isPollEvent : Event → Bool
  | .setTimeout _ => true
  | .deviceToken _ _ => true
  | .loggerError _ => true
  | .resolve => true
  | .processExit _ => true
  | _ => false

/-! ## Sample values -/

/-- The answer `error: authorization_pending`. -/
def pendingReply : Reply TokenRecord :=
  .returns none (some ⟨some "authorization_pending", none, none, none⟩)

/-- The answer `error: slow_down`. -/
def slowDownReply : Reply TokenRecord :=
  .returns none (some ⟨some "slow_down", none, none, none⟩)

/-- The answer `error: expired_token`. -/
def expiredReply : Reply TokenRecord :=
  .returns none (some ⟨some "expired_token", none, none, none⟩)

/-- The payload of the scenario of the specification. -/
def sampleToken : TokenRecord :=
  ⟨some "tok_abc", some "Bearer", some "openid", none⟩

/-- The composition of C4: `storeToken(token)` followed by `getStoredToken()`. -/
def storeThenLoad (now : String) (token : TokenRecord) : Js (Option TokenRecord) := do
  storeToken now token
  getStoredToken

/-- A disk without token file on which every operation is permitted. -/
def emptyDisk : Disk :=
  ⟨none, true, true, true, true⟩

/-- A disk holding the given record, on which every operation is permitted. -/
def diskWith (r : TokenRecord) : Disk :=
  ⟨some (.json r), true, true, true, true⟩

/-- A record as C4 quantifies over it, created some time ago. -/
def olderRecord : TokenRecord :=
  ⟨some "tok_abc", some "Bearer", some "openid", some "2025-01-01T00:00:00.000Z"⟩

/-- A record whose token type is the empty string. -/
def untypedRecord : TokenRecord :=
  ⟨some "tok_abc", some "", some "openid", some "2026-11-04T00:00:00.000Z"⟩

/-- A record other than `olderRecord`, stored now. -/
def newerRecord : TokenRecord :=
  ⟨some "tok_xyz", some "Bearer", some "openid", some "2026-11-04T00:00:00.000Z"⟩

/-- A token file that exists and may be removed but not read. -/
def lockedDisk : Disk :=
  ⟨some (.json sampleToken), false, true, true, true⟩

/-- What `getStoredToken()` returns on a disk: the object in the token file when
the file exists, may be read and parses; `null` otherwise. -/
def storedToken (disk : Disk) : Option TokenRecord :=
  match disk.file with
  | some (.json value) => if disk.readable then some value else none
  | _ => none

/-- The device-code answer of the scenario of the specification. -/
def sampleDevice : DeviceAuthorization :=
  { device_code := "D1"
    user_code := "ABCD-1234"
    verification_uri := none
    verification_uri_complete := some "https://x/device?code=ABCD-1234"
    interval := some 5
    expires_in := 600 }

/-- The scenario of the specification: a client id, no stored token to confirm,
the device code `D1`, two `authorization_pending` answers and then the payload. -/
def sampleLoginEnv : LoginEnv :=
  { serverUrl := none
    clientId := some "cid"
    CLIENT_ID := none
    shouldReauth := .yes
    createAuthClientThrows := false
    deviceCode := .returns (some sampleDevice) none
    shouldOpen := .no
    openThrows := false
    tokenReplies := [pendingReply, pendingReply, .returns (some sampleToken) none]
    now := "2026-11-04T00:00:00.000Z"
    session := .returns (some ⟨some ⟨some "Ada", none⟩⟩) none }

/-- A logout that is not forced and that the user declines, with a server that
answers the session lookup and the sign-out. -/
def sampleLogoutEnv : LogoutEnv :=
  { serverUrl := none
    force := false
    createAuthClientThrows := false
    session := .returns (some ⟨some ⟨some "Ada", none⟩⟩) none
    shouldLogout := .no
    signOut := .returns (some ()) none }

/-- The state carried by the outcome of one execution of `poll`. -/
def PollStep.state : PollStep → PollState
  | .resolved _ s => s
  | .exited _ s => s
  | .scheduled s => s

/-- The cadence of the specification (section 4.2, step 1 with steps 4 and 5),
written from its words: for each answer that keeps the poller polling, one
attempt, then a wait of the interval as it stands after that answer, a
`slow_down` having added five seconds to it. -/
def cadence (deviceCode clientId : String) : Nat → List (Reply TokenRecord) → List Event
  | _, [] => []
  | interval, r :: rest =>
    let next := if r.isSlowDown = true then interval + 5 else interval
    .deviceToken deviceCode clientId :: .setTimeout (next * 1000)
      :: cadence deviceCode clientId next rest

/-- The value of `userName` after lines 50-70 of logout.js: the name or the email
of the user of the session, and `"User"` when the auth client cannot be created,
the lookup throws, or no user comes back. -/
def logoutShownName (env : LogoutEnv) : String :=
  if env.createAuthClientThrows = true then "User"
  else
    match env.session with
    | .returns session _ =>
      match session.bind Session.user with
      | some user => jsStr (jsOr (jsOr user.name user.email) (some "User"))
      | none => "User"
    | .throws _ => "User"

/-- The events of lines 43-70 of logout.js: the token file is read, the auth
client is created and, when that does not throw, the session is looked up. -/
def logoutLookup (env : LogoutEnv) (tokenData : TokenRecord) : List Event :=
  [.readFile, .createAuthClient (jsStr (jsOr env.serverUrl (some DEMO_URL)))]
    ++ (if env.createAuthClientThrows = true then []
        else [.getSession ("Bearer " ++ jsStr tokenData.access_token)])

/-- The prompt of lines 74-77 of logout.js. -/
def logoutPrompt (env : LogoutEnv) : Event :=
  .confirm ("Are you sure you want to log out? (" ++ logoutShownName env ++ ")")

/-! ## One execution of `poll` -/

theorem poll_pending (dc ci : String) (s : PollState) (r : Reply TokenRecord)
    (h : r.isPending = true) :
    poll dc ci s r = .scheduled (schedule (requesting dc ci s)) := by
  unfold Reply.isPending Reply.isError at h
  rcases r with ⟨data, error⟩ | m
  · rcases error with _ | e
    · simp at h
    · rcases data with _ | d <;>
        simp_all [poll, pollError, requesting, accessTokenOf]
  · simp at h

theorem poll_slowDown (dc ci : String) (s : PollState) (r : Reply TokenRecord)
    (h : r.isSlowDown = true) :
    poll dc ci s r = .scheduled (schedule (slowDown (requesting dc ci s))) := by
  unfold Reply.isSlowDown Reply.isError at h
  rcases r with ⟨data, error⟩ | m
  · rcases error with _ | e
    · simp at h
    · rcases data with _ | d <;>
        simp_all [poll, pollError, requesting, accessTokenOf]
  · simp at h

theorem poll_silent (dc ci : String) (s : PollState) (r : Reply TokenRecord)
    (h : r.isSilent = true) :
    poll dc ci s r = .scheduled (schedule (requesting dc ci s)) := by
  unfold Reply.isSilent at h
  rcases r with ⟨data, error⟩ | m
  · rcases error with _ | e
    · rcases data with _ | d <;>
        simp_all [poll, requesting, accessTokenOf]
    · simp at h
  · simp at h

theorem poll_token (dc ci : String) (s : PollState) (p : TokenRecord) (error : Option ApiError)
    (h : truthy p.access_token = true) :
    poll dc ci s (.returns (some p) error) =
      .resolved p ((spinnerStop (requesting dc ci s)).emit [.resolve]) := by
  simp [poll, requesting, h]

theorem poll_fatal (dc ci : String) (s : PollState) (r : Reply TokenRecord)
    (h : r.isFatal = true) :
    ∃ message, poll dc ci s r = .exited 1
      ((spinnerStop (requesting dc ci s)).emit [.loggerError message, .processExit 1]) := by
  unfold Reply.isFatal at h
  rcases r with ⟨data, error⟩ | m
  · rcases error with _ | e
    · simp at h
    · rcases data with _ | d <;>
      · simp only [poll, pollError, requesting, accessTokenOf] at h ⊢
        simp at h
        simp only [h]
        split_ifs <;> first | exact ⟨_, rfl⟩ | simp_all
  · simp at h

theorem poll_throws (dc ci : String) (s : PollState) (m : Option String) :
    poll dc ci s (.throws m) = .exited 1
      ((spinnerStop (requesting dc ci s)).emit
        [.loggerError ("Network error: " ++ m.getD "Unknown error"), .processExit 1]) := by
  simp [poll, requesting]
/-! ## The polling loop -/
theorem poll_keeps (dc ci : String) (s : PollState) (r : Reply TokenRecord)
    (h : r.keepsPolling = true) :
    ∃ s1, poll dc ci s r = .scheduled s1
      ∧ s1.pollingInterval = s.pollingInterval + (if r.isSlowDown = true then 5 else 0)
      ∧ s1.log = s.log ++ [.deviceToken dc ci, .setTimeout (s1.pollingInterval * 1000)] := by
  unfold Reply.keepsPolling at h
  by_cases hs : r.isSlowDown = true
  · refine ⟨_, poll_slowDown dc ci s r hs, ?_, ?_⟩ <;>
      simp [hs, schedule, slowDown, requesting, pollSpinner, PollState.emit]
  · have hp : poll dc ci s r = .scheduled (schedule (requesting dc ci s)) := by
      rcases Bool.or_eq_true _ _ |>.mp h with h1 | h1
      · rcases Bool.or_eq_true _ _ |>.mp h1 with h2 | h2
        · exact poll_pending dc ci s r h2
        · exact absurd h2 hs
      · exact poll_silent dc ci s r h1
    refine ⟨_, hp, ?_, ?_⟩ <;>
      simp [hs, schedule, requesting, pollSpinner, PollState.emit]

theorem pollLoop_keeps (dc ci : String) (pre : List (Reply TokenRecord)) :
    ∀ s : PollState, (∀ r ∈ pre, r.keepsPolling = true) →
    ∃ s1, (∀ rest, pollLoop dc ci s (pre ++ rest) = pollLoop dc ci s1 rest)
      ∧ s1.pollingInterval = s.pollingInterval + 5 * pre.countP Reply.isSlowDown
      ∧ attempts s1.log = attempts s.log + pre.length
      ∧ waits s1.log = waits s.log + pre.length
      ∧ exits s1.log = exits s.log
      ∧ ∃ added, s1.log = s.log ++ added ∧ ∀ e ∈ added, e.isPollEvent = true := by
  induction pre with
  | nil =>
    intro s _
    exact ⟨s, fun _ => rfl, by simp, by simp, by simp, rfl, [], by simp, by simp⟩
  | cons r pre ih =>
    intro s h
    obtain ⟨s1, h1, hi1, hl1⟩ := poll_keeps dc ci s r (h r (List.mem_cons_self _ _))
    obtain ⟨s2, h2, hi2, ha2, hw2, he2, added, hadd, hev⟩ :=
      ih s1 (fun x hx => h x (List.mem_cons_of_mem _ hx))
    refine ⟨s2, ?_, ?_, ?_, ?_, ?_, ?_⟩
    · intro rest
      simp only [List.cons_append, pollLoop, h1]
      exact h2 rest
    · rw [hi2, hi1, List.countP_cons]
      split_ifs <;> omega
    · rw [ha2, hl1]
      simp [attempts, List.countP_append, List.countP_cons, Event.isAttempt]
      omega
    · rw [hw2, hl1]
      simp [waits, List.countP_append, List.countP_cons, Event.isWait]
      omega
    · rw [he2, hl1]
      simp [exits, List.countP_append, List.countP_cons]
    · refine ⟨[.deviceToken dc ci, .setTimeout (s1.pollingInterval * 1000)] ++ added, ?_, ?_⟩
      · rw [hadd, hl1, List.append_assoc]
      · intro e he
        rcases List.mem_append.mp he with he | he
        · simp at he
          rcases he with rfl | rfl <;> rfl
        · exact hev e he

theorem pollForToken_keeps (dc ci : String) (i : Nat) (pre : List (Reply TokenRecord))
    (log : List Event) (h : ∀ r ∈ pre, r.keepsPolling = true) :
    ∃ s1, (∀ rest, pollForToken dc ci i (pre ++ rest) log = pollLoop dc ci s1 rest)
      ∧ s1.pollingInterval = i + 5 * pre.countP Reply.isSlowDown
      ∧ attempts s1.log = attempts log + pre.length
      ∧ waits s1.log = waits log + pre.length + 1
      ∧ exits s1.log = exits log
      ∧ ∃ added, s1.log = log ++ added ∧ ∀ e ∈ added, e.isPollEvent = true := by
  obtain ⟨s1, h1, hi, ha, hw, he, added, hadd, hev⟩ :=
    pollLoop_keeps dc ci pre (schedule (pollInit i log)) h
  refine ⟨s1, fun rest => h1 rest, ?_, ?_, ?_, ?_, ?_⟩
  · simpa [schedule, pollInit, PollState.emit] using hi
  · rw [ha]
    simp [schedule, pollInit, PollState.emit, attempts, List.countP_append, Event.isAttempt]
  · rw [hw]
    simp [schedule, pollInit, PollState.emit, waits, List.countP_append, Event.isWait]
    omega
  · rw [he]
    simp [schedule, pollInit, PollState.emit, exits, List.countP_append]
  · refine ⟨.setTimeout (i * 1000) :: added, ?_, ?_⟩
    · rw [hadd]
      simp [schedule, pollInit, PollState.emit]
    · intro e he
      rcases List.mem_cons.mp he with rfl | he
      · rfl
      · exact hev e he

theorem pending_keepsPolling (r : Reply TokenRecord) (h : r.isPending = true) :
    r.keepsPolling = true := by
  simp [Reply.keepsPolling, h]

theorem pending_not_slowDown (r : Reply TokenRecord) (h : r.isPending = true) :
    r.isSlowDown = false := by
  rcases r with ⟨data, error⟩ | m
  · rcases error with _ | e
    · rfl
    · simp only [Reply.isPending, Reply.isSlowDown, Reply.isError, Bool.and_eq_true,
        beq_iff_eq] at h ⊢
      simp [h.2]
  · rfl

theorem pollForToken_granted (dc ci : String) (i : Nat) (pending : List (Reply TokenRecord))
    (p : TokenRecord) (error : Option ApiError) (rest : List (Reply TokenRecord))
    (log : List Event) (hpending : ∀ r ∈ pending, r.isPending = true)
    (hp : truthy p.access_token = true) :
    ∃ s, pollForToken dc ci i (pending ++ .returns (some p) error :: rest) log = .resolved p s
      ∧ attempts s.log = attempts log + pending.length + 1
      ∧ exits s.log = exits log
      ∧ s.log.getLast? = some .resolve
      ∧ ∃ added, s.log = log ++ added ∧ ∀ e ∈ added, e.isPollEvent = true := by
  obtain ⟨s1, h1, -, ha, -, he, added, hadd, hev⟩ :=
    pollForToken_keeps dc ci i pending log (fun r hr => pending_keepsPolling r (hpending r hr))
  refine ⟨(spinnerStop (requesting dc ci s1)).emit [.resolve], ?_, ?_, ?_, ?_, ?_⟩
  · rw [h1, pollLoop, poll_token dc ci s1 p error hp]
  · simp [spinnerStop, requesting, pollSpinner, PollState.emit, attempts, List.countP_append,
      Event.isAttempt] at ha ⊢
    omega
  · simp [spinnerStop, requesting, pollSpinner, PollState.emit, exits, List.countP_append]
      at he ⊢
    exact he
  · simp [spinnerStop, requesting, pollSpinner, PollState.emit]
  · refine ⟨added ++ [.deviceToken dc ci, .resolve], ?_, ?_⟩
    · simp [spinnerStop, requesting, pollSpinner, PollState.emit, hadd]
    · intro e he
      rcases List.mem_append.mp he with he | he
      · exact hev e he
      · simp at he
        rcases he with rfl | rfl <;> rfl

/-- C1. If the token endpoint answers the first `n` attempts with the error
`authorization_pending` and attempt `n + 1` with a payload `p` whose access token
is non-empty, then `pollForToken` resolves with `p` itself, after exactly `n + 1`
attempts, without a process exit, and resolving is the last thing it does. -/
theorem pollForToken_pending_then_token (deviceCode clientId : String)
    (initialInterval n : Nat) (pending : List (Reply TokenRecord)) (p : TokenRecord)
    (error : Option ApiError) (rest : List (Reply TokenRecord))
    (hn : pending.length = n) (hpending : ∀ r ∈ pending, r.isPending = true)
    (hp : truthy p.access_token = true) :
    ∃ s, pollForToken deviceCode clientId initialInterval
          (pending ++ .returns (some p) error :: rest) [] = .resolved p s
      ∧ attempts s.log = n + 1
      ∧ exits s.log = 0
      ∧ s.log.getLast? = some .resolve := by
  obtain ⟨s, hs, ha, he, hl, -⟩ :=
    pollForToken_granted deviceCode clientId initialInterval pending p error rest [] hpending hp
  refine ⟨s, hs, ?_, ?_, hl⟩
  · rw [ha, hn]
    simp [attempts]
  · rw [he]
    simp [exits]
theorem pollForToken_pending_then_token_witness :
    ([pendingReply, pendingReply].length = 2
      ∧ (∀ r ∈ [pendingReply, pendingReply], r.isPending = true)
      ∧ truthy sampleToken.access_token = true)
    ∧ ∃ s, pollForToken "D1" "cid" 5
          ([pendingReply, pendingReply] ++ .returns (some sampleToken) none :: []) []
            = .resolved sampleToken s
      ∧ attempts s.log = 2 + 1
      ∧ exits s.log = 0
      ∧ s.log.getLast? = some .resolve :=
  ⟨⟨rfl, by decide, by decide⟩,
    pollForToken_pending_then_token "D1" "cid" 5 2 [pendingReply, pendingReply] sampleToken
      none [] rfl (by decide) (by decide)⟩

theorem pollForToken_polling (dc ci : String) (i : Nat) (tr : List (Reply TokenRecord))
    (log : List Event) (h : ∀ r ∈ tr, r.keepsPolling = true) :
    ∃ s, pollForToken dc ci i tr log = .polling s
      ∧ s.pollingInterval = i + 5 * tr.countP Reply.isSlowDown := by
  obtain ⟨s1, h1, hi, -⟩ := pollForToken_keeps dc ci i tr log h
  refine ⟨s1, ?_, hi⟩
  have := h1 []
  simpa [pollLoop] using this

/-- C2. On a trace made only of `authorization_pending` and `slow_down` errors
the poller is still polling, and its interval is the initial interval plus five
seconds for each `slow_down` of the trace; the interval after any beginning of the
trace is at most the interval after the whole trace; one `authorization_pending`
leaves the interval as it is and one `slow_down` adds five to it. -/
theorem pollForToken_interval (deviceCode clientId : String) (initialInterval : Nat)
    (trace : List (Reply TokenRecord))
    (h : ∀ r ∈ trace, r.isPending = true ∨ r.isSlowDown = true) :
    (∃ s, pollForToken deviceCode clientId initialInterval trace [] = .polling s
      ∧ s.pollingInterval = initialInterval + 5 * trace.countP Reply.isSlowDown)
    ∧ (∀ p q, trace = p ++ q →
        (pollForToken deviceCode clientId initialInterval p []).state.pollingInterval
          = initialInterval + 5 * p.countP Reply.isSlowDown
        ∧ (pollForToken deviceCode clientId initialInterval p []).state.pollingInterval
          ≤ (pollForToken deviceCode clientId initialInterval trace []).state.pollingInterval)
    ∧ (∀ (s : PollState) (r : Reply TokenRecord), r.isPending = true →
        ∃ s1, poll deviceCode clientId s r = .scheduled s1
          ∧ s1.pollingInterval = s.pollingInterval)
    ∧ (∀ (s : PollState) (r : Reply TokenRecord), r.isSlowDown = true →
        ∃ s1, poll deviceCode clientId s r = .scheduled s1
          ∧ s1.pollingInterval = s.pollingInterval + 5) := by
  have hk : ∀ tr : List (Reply TokenRecord),
      (∀ r ∈ tr, r.isPending = true ∨ r.isSlowDown = true) → ∀ r ∈ tr, r.keepsPolling = true := by
    intro tr htr r hr
    rcases htr r hr with h1 | h1 <;> simp [Reply.keepsPolling, h1]
  refine ⟨pollForToken_polling _ _ _ _ _ (hk trace h), ?_, ?_, ?_⟩
  · intro p q hpq
    subst hpq
    obtain ⟨s, hs, hi⟩ := pollForToken_polling deviceCode clientId initialInterval (p ++ q) []
      (hk _ h)
    obtain ⟨sp, hsp, hip⟩ := pollForToken_polling deviceCode clientId initialInterval p []
      (hk p (fun r hr => h r (List.mem_append_left _ hr)))
    rw [hs, hsp]
    simp only [PollResult.state, hi, hip, List.countP_append]
    exact ⟨trivial, by omega⟩
  · intro s r hr
    refine ⟨_, poll_pending deviceCode clientId s r hr, ?_⟩
    simp [schedule, requesting, pollSpinner, PollState.emit]
  · intro s r hr
    refine ⟨_, poll_slowDown deviceCode clientId s r hr, ?_⟩
    simp [schedule, slowDown, requesting, pollSpinner, PollState.emit]

theorem pollForToken_interval_witness :
    (∀ r ∈ [pendingReply, slowDownReply, slowDownReply],
        r.isPending = true ∨ r.isSlowDown = true)
    ∧ ∃ s, pollForToken "D1" "cid" 5 [pendingReply, slowDownReply, slowDownReply] [] = .polling s
      ∧ s.pollingInterval = 5 + 5 * [pendingReply, slowDownReply, slowDownReply].countP
          Reply.isSlowDown :=
  ⟨by decide,
    (pollForToken_interval "D1" "cid" 5 [pendingReply, slowDownReply, slowDownReply]
      (by decide)).1⟩

theorem pollForToken_exit (dc ci : String) (i : Nat) (pre : List (Reply TokenRecord))
    (r : Reply TokenRecord) (log : List Event)
    (hpre : ∀ x ∈ pre, x.keepsPolling = true)
    (hr : r.isFatal = true ∨ ∃ m, r = .throws m) :
    ∃ s, (∀ rest, pollForToken dc ci i (pre ++ r :: rest) log = .exited 1 s)
      ∧ attempts s.log = attempts log + pre.length + 1
      ∧ waits s.log = waits log + pre.length + 1
      ∧ exits s.log = exits log + 1
      ∧ s.log.getLast? = some (.processExit 1)
      ∧ ∃ added, s.log = log ++ added ∧ ∀ e ∈ added, e.isPollEvent = true := by
  obtain ⟨s1, h1, -, ha, hw, he, added, hadd, hev⟩ := pollForToken_keeps dc ci i pre log hpre
  have hstep : ∃ message, poll dc ci s1 r = .exited 1
      ((spinnerStop (requesting dc ci s1)).emit [.loggerError message, .processExit 1]) := by
    rcases hr with hr | ⟨m, rfl⟩
    · exact poll_fatal dc ci s1 r hr
    · exact ⟨_, poll_throws dc ci s1 m⟩
  obtain ⟨message, hm⟩ := hstep
  refine ⟨_, fun rest => by rw [h1, pollLoop, hm], ?_, ?_, ?_, ?_, ?_⟩
  · simp [spinnerStop, requesting, pollSpinner, PollState.emit, attempts, List.countP_append,
      Event.isAttempt] at ha ⊢
    omega
  · simp [spinnerStop, requesting, pollSpinner, PollState.emit, waits, List.countP_append,
      Event.isWait] at hw ⊢
    omega
  · simp [spinnerStop, requesting, pollSpinner, PollState.emit, exits, List.countP_append]
      at he ⊢
    omega
  · simp [spinnerStop, requesting, pollSpinner, PollState.emit]
  · refine ⟨added ++ [.deviceToken dc ci, .loggerError message, .processExit 1], ?_, ?_⟩
    · simp [spinnerStop, requesting, pollSpinner, PollState.emit, hadd]
    · intro e he
      rcases List.mem_append.mp he with he | he
      · exact hev e he
      · simp at he
        rcases he with rfl | rfl | rfl <;> rfl

/-- C3. Once the token endpoint answers with an error that carries no access
token and whose code is neither `authorization_pending` nor `slow_down`
(`access_denied`, `expired_token` or any other code), the poller exits the process
with code 1 and does not resolve: that answer is the last attempt, no wait is
scheduled after it, the exit is the last event, and whatever the endpoint would
answer afterwards is never asked for. -/
theorem pollForToken_fatal_terminal (deviceCode clientId : String) (initialInterval : Nat)
    (before : List (Reply TokenRecord)) (r : Reply TokenRecord)
    (hbefore : ∀ x ∈ before, x.keepsPolling = true) (hr : r.isFatal = true) :
    ∃ s, (∀ after, pollForToken deviceCode clientId initialInterval
            (before ++ r :: after) [] = .exited 1 s)
      ∧ attempts s.log = before.length + 1
      ∧ waits s.log = before.length + 1
      ∧ exits s.log = 1
      ∧ s.log.getLast? = some (.processExit 1) := by
  obtain ⟨s, hs, ha, hw, he, hl, -⟩ :=
    pollForToken_exit deviceCode clientId initialInterval before r [] hbefore (Or.inl hr)
  refine ⟨s, hs, ?_, ?_, ?_, hl⟩
  · simpa [attempts] using ha
  · simpa [waits] using hw
  · simpa [exits] using he

theorem pollForToken_fatal_terminal_witness :
    ((∀ x ∈ [pendingReply, slowDownReply], x.keepsPolling = true)
      ∧ expiredReply.isFatal = true)
    ∧ ∃ s, (∀ after, pollForToken "D1" "cid" 5
            ([pendingReply, slowDownReply] ++ expiredReply :: after) [] = .exited 1 s)
      ∧ attempts s.log = [pendingReply, slowDownReply].length + 1
      ∧ waits s.log = [pendingReply, slowDownReply].length + 1
      ∧ exits s.log = 1
      ∧ s.log.getLast? = some (.processExit 1) :=
  ⟨⟨by decide, by decide⟩,
    pollForToken_fatal_terminal "D1" "cid" 5 [pendingReply, slowDownReply] expiredReply
      (by decide) (by decide)⟩

/-! ## The token store -/

@[simp] theorem js_bind_eq {α β : Type} (m : Js α) (f : α → Js β) :
    (m >>= f) = Js.bind m f := rfl

@[simp] theorem js_pure_eq {α : Type} (a : α) : (pure a : Js α) = Js.pure a := rfl

theorem storeToken_ok (now : String) (r : TokenRecord) (w : World)
    (hmkdir : w.disk.mkdirOk = true) (hwrite : w.disk.writable = true) :
    storeToken now r w = (.ok (),
      { disk := { w.disk with file := some (.json
          { access_token := r.access_token
            token_type := jsOr r.token_type (some "Bearer")
            scope := r.scope
            created_at := some now }) }
        log := w.log ++ [.mkdir, .writeFile] }) := by
  simp [storeToken, Js.tryCatch, Js.bind, fsMkdir, fsWriteFile, World.emit, hmkdir, hwrite,
    jsonStringify]

theorem getStoredToken_eq (w : World) :
    getStoredToken w = (.ok (storedToken w.disk), w.emit [.readFile]) := by
  rcases w with ⟨⟨file, readable, mkdirOk, writable, removable⟩, log⟩
  rcases file with _ | (_ | _) <;> cases readable <;> rfl

theorem storeToken_fail (now : String) (r : TokenRecord) (w : World)
    (h : w.disk.mkdirOk = false ∨ w.disk.writable = false) :
    storeToken now r w = (.ok (),
      { disk := w.disk
        log := w.log ++ (if w.disk.mkdirOk = true then [.mkdir, .writeFile] else [.mkdir])
          ++ [.loggerWarn "Failed to store authentication token locally"] }) := by
  rcases w with ⟨⟨file, readable, mkdirOk, writable, removable⟩, log⟩
  cases mkdirOk <;> cases writable <;>
    simp_all [storeToken, Js.tryCatch, Js.bind, fsMkdir, fsWriteFile, World.emit, Js.emit,
      jsonStringify]

/-- C4, as the code has it. When creating the directory and writing the file are
permitted, `storeToken(r)` replaces whatever the token file held by the record
with the access token and the scope of `r`, the token type of `r` or `"Bearer"`
when that is missing or empty, and the time of the call as `created_at`; when the
file may be read, `getStoredToken()` then returns that record, which is `r` itself
exactly when the token type of `r` is non-empty and its `created_at` is the time
of the call.  When creating the directory or writing the file is not permitted,
`storeToken(r)` completes after logging the warning "Failed to store
authentication token locally", the disk is what it was, and `getStoredToken()`
returns what it returned before. -/
theorem storeToken_getStoredToken (now : String) (r : TokenRecord) (disk : Disk) :
    (disk.mkdirOk = true → disk.writable = true →
      run (storeToken now r) disk = (.ok (),
        { disk := { disk with file := some (.json
            { access_token := r.access_token
              token_type := jsOr r.token_type (some "Bearer")
              scope := r.scope
              created_at := some now }) }
          log := [.mkdir, .writeFile] })
      ∧ (disk.readable = true →
          (run (storeThenLoad now r) disk).1 = .ok (some
            { access_token := r.access_token
              token_type := jsOr r.token_type (some "Bearer")
              scope := r.scope
              created_at := some now })
          ∧ ((run (storeThenLoad now r) disk).1 = .ok (some r)
              ↔ truthy r.token_type = true ∧ r.created_at = some now)))
    ∧ (disk.mkdirOk = false ∨ disk.writable = false →
      run (storeToken now r) disk = (.ok (),
        { disk := disk
          log := (if disk.mkdirOk = true then [.mkdir, .writeFile] else [.mkdir])
            ++ [.loggerWarn "Failed to store authentication token locally"] })
      ∧ (run (storeThenLoad now r) disk).1 = .ok (storedToken disk)) := by
  refine ⟨fun hmkdir hwrite => ⟨?_, fun hread => ?_⟩, fun hfail => ⟨?_, ?_⟩⟩
  · simp [run, storeToken_ok, hmkdir, hwrite]
  · have h : (run (storeThenLoad now r) disk).1 = .ok (some
        { access_token := r.access_token
          token_type := jsOr r.token_type (some "Bearer")
          scope := r.scope
          created_at := some now }) := by
      simp [run, storeThenLoad, Js.bind, storeToken_ok, hmkdir, hwrite, getStoredToken_eq,
        storedToken, hread, World.emit]
    refine ⟨h, ?_⟩
    rw [h]
    rcases r with ⟨a, t, sc, c⟩
    simp only [Except.ok.injEq, Option.some.injEq, TokenRecord.mk.injEq, true_and]
    constructor
    · rintro ⟨ht, hc⟩
      refine ⟨?_, hc.symm⟩
      by_cases htt : truthy t = true
      · exact htt
      · exfalso
        simp only [jsOr, htt] at ht
        rcases t with _ | t
        · cases ht
        · injection ht with ht
          subst ht
          exact htt (by decide)
    · rintro ⟨ht, hc⟩
      exact ⟨by simp [jsOr, ht], hc.symm⟩
  · simp [run, storeToken_fail, hfail]
  · simp [run, storeThenLoad, Js.bind, storeToken_fail, hfail, getStoredToken_eq, World.emit]

theorem storeToken_getStoredToken_witness :
    ((diskWith olderRecord).mkdirOk = true ∧ (diskWith olderRecord).writable = true
      ∧ (diskWith olderRecord).readable = true)
    ∧ (run (storeThenLoad "2026-11-04T00:00:00.000Z" newerRecord) (diskWith olderRecord)).1
        = .ok (some newerRecord)
    ∧ (run (storeThenLoad "2026-11-04T00:00:00.000Z" newerRecord)
        { diskWith olderRecord with mkdirOk := false }).1 = .ok (some olderRecord) :=
  ⟨⟨rfl, rfl, rfl⟩,
    (((storeToken_getStoredToken "2026-11-04T00:00:00.000Z" newerRecord (diskWith olderRecord)).1
      rfl rfl).2 rfl).2.mpr ⟨by decide, rfl⟩,
    ((storeToken_getStoredToken "2026-11-04T00:00:00.000Z" newerRecord
      { diskWith olderRecord with mkdirOk := false }).2 (Or.inl rfl)).2⟩

/-- C4 as stated fails: a record created earlier comes back with the time of the
call as `created_at`; an empty token type comes back as `"Bearer"`; and on a token
file that may not be written the record stored before comes back. -/
theorem storeToken_round_trip_counterexample :
    ((run (storeThenLoad "2026-11-04T00:00:00.000Z" olderRecord) emptyDisk).1
        = .ok (some { olderRecord with created_at := some "2026-11-04T00:00:00.000Z" })
      ∧ olderRecord.created_at ≠ some "2026-11-04T00:00:00.000Z")
    ∧ ((run (storeThenLoad "2026-11-04T00:00:00.000Z" untypedRecord) emptyDisk).1
        = .ok (some { untypedRecord with token_type := some "Bearer" })
      ∧ untypedRecord.token_type ≠ some "Bearer")
    ∧ ((run (storeThenLoad "2026-11-04T00:00:00.000Z" newerRecord)
          { diskWith olderRecord with writable := false }).1 = .ok (some olderRecord)
      ∧ olderRecord ≠ newerRecord) :=
  ⟨⟨rfl, by decide⟩, ⟨rfl, by decide⟩, ⟨rfl, by decide⟩⟩

/-- C9, as the code has it. `getStoredToken` returns `null` when the token file
does not exist or may not be read, `deleteStoredToken` returns `false` when the
file does not exist or may not be removed, and in both cases the disk is left as it
was; on every disk both calls complete without throwing; `deleteStoredToken`
returns `true` only when the file existed and is gone afterwards. -/
theorem tokenStore_never_raises (disk : Disk) :
    (disk.file = none ∨ disk.readable = false →
        run getStoredToken disk = (.ok none, { disk := disk, log := [.readFile] }))
    ∧ (disk.file = none ∨ disk.removable = false →
        run deleteStoredToken disk = (.ok false, { disk := disk, log := [.unlink] }))
    ∧ (∃ value, (run getStoredToken disk).1 = .ok value)
    ∧ (∃ deleted, (run deleteStoredToken disk).1 = .ok deleted)
    ∧ ((run deleteStoredToken disk).1 = .ok true →
        disk.file ≠ none ∧ (run deleteStoredToken disk).2.disk.file = none) := by
  rcases disk with ⟨file, readable, mkdirOk, writable, removable⟩
  refine ⟨?_, ?_, ?_, ?_, ?_⟩
  · rintro (h | h) <;> simp only at h <;> subst h
    · rfl
    · cases file <;> rfl
  · rintro (h | h) <;> simp only at h <;> subst h
    · rfl
    · cases file <;> rfl
  · rcases file with _ | (_ | _) <;> cases readable <;> exact ⟨_, rfl⟩
  · cases file <;> cases removable <;> exact ⟨_, rfl⟩
  · cases file <;> cases removable <;>
      simp [run, deleteStoredToken, Js.tryCatch, Js.bind, Js.pure, fsUnlink, World.emit]

theorem tokenStore_never_raises_witness :
    run getStoredToken emptyDisk = (.ok none, { disk := emptyDisk, log := [.readFile] })
    ∧ run deleteStoredToken emptyDisk = (.ok false, { disk := emptyDisk, log := [.unlink] }) :=
  ⟨(tokenStore_never_raises emptyDisk).1 (Or.inl rfl),
    (tokenStore_never_raises emptyDisk).2.1 (Or.inl rfl)⟩

/-- C9 as stated fails: on a token file that exists and may not be read,
`deleteStoredToken` removes the file and returns `true`. -/
theorem deleteStoredToken_unreadable_counterexample :
    lockedDisk.file ≠ none ∧ lockedDisk.readable = false
    ∧ (run getStoredToken lockedDisk).1 = .ok none
    ∧ (run deleteStoredToken lockedDisk).1 = .ok true
    ∧ (run deleteStoredToken lockedDisk).2.disk.file = none :=
  ⟨by decide, rfl, rfl, rfl, rfl⟩

/-! ## loginAction -/

/-- C10. When neither the option `--client-id` nor the environment variable gives
a non-empty client id, `loginAction` exits the process with code 1 after logging
the error: the run sends no request (no device-code request, no token poll, no
session lookup), does not touch the token file and leaves the disk as it was. -/
theorem loginAction_no_client_id (env : LoginEnv) (disk : Disk)
    (hopt : truthy env.clientId = false) (henv : truthy env.CLIENT_ID = false) :
    run (loginAction env) disk = (.error (.exit 1),
      { disk := disk
        log := [.loggerError "CLIENT_ID is not set in .env file", .processExit 1] })
    ∧ (∀ e ∈ (run (loginAction env) disk).2.log,
        e.isNetwork = false ∧ e.isStoreWrite = false ∧ e ≠ .readFile) := by
  have h : run (loginAction env) disk = (.error (.exit 1),
      { disk := disk
        log := [.loggerError "CLIENT_ID is not set in .env file", .processExit 1] }) := by
    simp [run, loginAction, jsOr, hopt, henv, Js.bind, Js.emit, Js.exit, World.emit]
  refine ⟨h, ?_⟩
  rw [h]
  intro e he
  simp at he
  rcases he with rfl | rfl <;> simp [Event.isNetwork, Event.isStoreWrite]

theorem loginAction_no_client_id_witness :
    (truthy ({ sampleLoginEnv with clientId := some "" } : LoginEnv).clientId = false
      ∧ truthy ({ sampleLoginEnv with clientId := some "" } : LoginEnv).CLIENT_ID = false)
    ∧ run (loginAction { sampleLoginEnv with clientId := some "" }) (diskWith sampleToken)
      = (.error (.exit 1),
        { disk := diskWith sampleToken
          log := [.loggerError "CLIENT_ID is not set in .env file", .processExit 1] }) :=
  ⟨⟨rfl, rfl⟩,
    (loginAction_no_client_id { sampleLoginEnv with clientId := some "" }
      (diskWith sampleToken) rfl rfl).1⟩

theorem isPollEvent_not_storeWrite (e : Event) (h : e.isPollEvent = true) :
    e.isStoreWrite = false := by
  cases e <;> simp_all [Event.isPollEvent, Event.isStoreWrite]

theorem exits_append (a b : List Event) : exits (a ++ b) = exits a + exits b := by
  simp [exits, List.countP_append]

theorem attempts_append (a b : List Event) : attempts (a ++ b) = attempts a + attempts b := by
  simp [attempts, List.countP_append]

theorem loginAction_reaches_poll (env : LoginEnv) (disk : Disk) (data : DeviceAuthorization)
    (hclient : truthy (jsOr env.clientId env.CLIENT_ID) = true)
    (hreauth : storedToken disk = none ∨ env.shouldReauth = .yes)
    (hcreate : env.createAuthClientThrows = false)
    (hdevice : env.deviceCode = .returns (some data) none)
    (hopen : env.shouldOpen ≠ .yes ∨ env.openThrows = false) :
    ∃ pre, (∀ e ∈ pre, e.isStoreWrite = false) ∧ exits pre = 0 ∧ attempts pre = 0
      ∧ run (loginAction env) disk
        = Js.tryCatch (loginPoll env (jsStr (jsOr env.clientId env.CLIENT_ID)) data) loginCatch
            { disk := disk, log := pre } := by
  have hflow : ∀ w : World, ∃ added, (∀ e ∈ added, e.isStoreWrite = false) ∧ exits added = 0
      ∧ attempts added = 0
      ∧ loginFlow env (jsStr (jsOr env.serverUrl (some DEMO_URL)))
          (jsStr (jsOr env.clientId env.CLIENT_ID)) w
        = Js.tryCatch (loginPoll env (jsStr (jsOr env.clientId env.CLIENT_ID)) data) loginCatch
            { disk := w.disk, log := w.log ++ added } := by
    intro w
    by_cases hy : env.shouldOpen = .yes
    · have ho : env.openThrows = false := by
        rcases hopen with h | h
        · exact absurd hy h
        · exact h
      refine ⟨[.createAuthClient (jsStr (jsOr env.serverUrl (some DEMO_URL))),
        .deviceCode (jsStr (jsOr env.clientId env.CLIENT_ID)) "openid profile email",
        .confirm "Open browser automatically?",
        .openBrowser (jsStr (jsOr data.verification_uri_complete data.verification_uri))],
        ?_, by simp [exits], by simp [attempts, Event.isAttempt], ?_⟩
      · intro e he
        simp at he
        rcases he with rfl | rfl | rfl | rfl <;> rfl
      · simp [loginFlow, loginTry, Js.bind, createAuthClient, hcreate, World.emit, Js.tryCatch,
          request, hdevice, confirm, hy, openBrowser, ho]
    · refine ⟨[.createAuthClient (jsStr (jsOr env.serverUrl (some DEMO_URL))),
        .deviceCode (jsStr (jsOr env.clientId env.CLIENT_ID)) "openid profile email",
        .confirm "Open browser automatically?"],
        ?_, by simp [exits], by simp [attempts, Event.isAttempt], ?_⟩
      · intro e he
        simp at he
        rcases he with rfl | rfl | rfl <;> rfl
      · simp [loginFlow, loginTry, Js.bind, createAuthClient, hcreate, World.emit, Js.tryCatch,
          request, hdevice, confirm, hy]
  cases hst : storedToken disk with
  | none =>
    obtain ⟨added, h1, h2, h3, h4⟩ := hflow { disk := disk, log := [.readFile] }
    refine ⟨[.readFile] ++ added, ?_, ?_, ?_, ?_⟩
    · intro e he
      rcases List.mem_append.mp he with he | he
      · simp at he
        subst he
        rfl
      · exact h1 e he
    · rw [exits_append, h2]; simp [exits]
    · rw [attempts_append, h3]; simp [attempts, Event.isAttempt]
    · rw [← h4]
      simp [run, loginAction, hclient, Js.bind, getStoredToken_eq, hst, World.emit]
  | some tok =>
    have hr : env.shouldReauth = .yes := by
      rcases hreauth with h | h
      · rw [hst] at h; cases h
      · exact h
    obtain ⟨added, h1, h2, h3, h4⟩ := hflow
      { disk := disk
        log := [.readFile, .confirm "You\x27re already logged in. Do you want to log in again?"] }
    refine ⟨[.readFile, .confirm "You\x27re already logged in. Do you want to log in again?"]
      ++ added, ?_, ?_, ?_, ?_⟩
    · intro e he
      rcases List.mem_append.mp he with he | he
      · simp at he
        rcases he with rfl | rfl <;> rfl
      · exact h1 e he
    · rw [exits_append, h2]; simp [exits]
    · rw [attempts_append, h3]; simp [attempts, Event.isAttempt]
    · rw [← h4]
      simp [run, loginAction, hclient, Js.bind, getStoredToken_eq, hst, World.emit, confirm, hr]

theorem awaitPollForToken_exit (dc ci : String) (i : Nat) (before : List (Reply TokenRecord))
    (r : Reply TokenRecord) (after : List (Reply TokenRecord)) (w : World)
    (hbefore : ∀ x ∈ before, x.keepsPolling = true)
    (hr : r.isFatal = true ∨ ∃ m, r = .throws m) :
    ∃ added, (∀ e ∈ added, e.isPollEvent = true) ∧ exits added = 1
      ∧ attempts added = before.length + 1
      ∧ awaitPollForToken dc ci i (before ++ r :: after) w
        = (.error (.exit 1), { disk := w.disk, log := w.log ++ added }) := by
  obtain ⟨s, hs, ha, -, he, -, added, hadd, hev⟩ :=
    pollForToken_exit dc ci i before r w.log hbefore hr
  refine ⟨added, hev, ?_, ?_, ?_⟩
  · rw [hadd, exits_append] at he
    omega
  · rw [hadd, attempts_append] at ha
    omega
  · simp [awaitPollForToken, hs after, hadd]

theorem awaitPollForToken_granted (dc ci : String) (i : Nat)
    (pending : List (Reply TokenRecord)) (p : TokenRecord) (error : Option ApiError)
    (rest : List (Reply TokenRecord)) (w : World)
    (hpending : ∀ r ∈ pending, r.isPending = true) (hp : truthy p.access_token = true) :
    ∃ added, (∀ e ∈ added, e.isPollEvent = true) ∧ exits added = 0
      ∧ attempts added = pending.length + 1
      ∧ awaitPollForToken dc ci i (pending ++ .returns (some p) error :: rest) w
        = (.ok p, { disk := w.disk, log := w.log ++ added }) := by
  obtain ⟨s, hs, ha, he, -, added, hadd, hev⟩ :=
    pollForToken_granted dc ci i pending p error rest w.log hpending hp
  refine ⟨added, hev, ?_, ?_, ?_⟩
  · rw [hadd, exits_append] at he
    omega
  · rw [hadd, attempts_append] at ha
    omega
  · simp [awaitPollForToken, hs, hadd]

/-- C6. In every run of `loginAction` that gets to the poller (a client id, no
declined re-authentication, a device-code answer) and in which the poller ends
otherwise than by a grant (an error answer whose code is neither
`authorization_pending` nor `slow_down`, or a token request that throws), the
process exits with code 1, the disk is what it was before the run, and no event of
the log writes to the token store: `storeToken` is not called. -/
theorem loginAction_poll_failure (env : LoginEnv) (disk : Disk) (data : DeviceAuthorization)
    (before : List (Reply TokenRecord)) (r : Reply TokenRecord)
    (after : List (Reply TokenRecord))
    (hclient : truthy (jsOr env.clientId env.CLIENT_ID) = true)
    (hreauth : storedToken disk = none ∨ env.shouldReauth = .yes)
    (hcreate : env.createAuthClientThrows = false)
    (hdevice : env.deviceCode = .returns (some data) none)
    (hopen : env.shouldOpen ≠ .yes ∨ env.openThrows = false)
    (htrace : env.tokenReplies = before ++ r :: after)
    (hbefore : ∀ x ∈ before, x.keepsPolling = true)
    (hr : r.isFatal = true ∨ ∃ m, r = .throws m) :
    (run (loginAction env) disk).1 = .error (.exit 1)
    ∧ (run (loginAction env) disk).2.disk = disk
    ∧ (∀ e ∈ (run (loginAction env) disk).2.log, e.isStoreWrite = false)
    ∧ exits (run (loginAction env) disk).2.log = 1 := by
  obtain ⟨pre, hpre, hpe, -, hrun⟩ :=
    loginAction_reaches_poll env disk data hclient hreauth hcreate hdevice hopen
  obtain ⟨added, hadd, hae, -, hpoll⟩ :=
    awaitPollForToken_exit data.device_code (jsStr (jsOr env.clientId env.CLIENT_ID))
      (data.interval.getD 5) before r after { disk := disk, log := pre } hbefore hr
  have hres : run (loginAction env) disk
      = (.error (.exit 1), { disk := disk, log := pre ++ added }) := by
    rw [hrun]
    simp [Js.tryCatch, loginPoll, Js.bind, htrace, hpoll]
  rw [hres]
  refine ⟨rfl, rfl, ?_, ?_⟩
  · intro e he
    rcases List.mem_append.mp he with he | he
    · exact hpre e he
    · exact isPollEvent_not_storeWrite e (hadd e he)
  · show exits (pre ++ added) = 1
    rw [exits_append, hpe, hae]

theorem loginAction_poll_failure_witness :
    (truthy (jsOr ({ sampleLoginEnv with tokenReplies := [expiredReply] } : LoginEnv).clientId
        ({ sampleLoginEnv with tokenReplies := [expiredReply] } : LoginEnv).CLIENT_ID) = true
      ∧ (storedToken (diskWith olderRecord) = none
          ∨ ({ sampleLoginEnv with tokenReplies := [expiredReply] } : LoginEnv).shouldReauth
            = .yes)
      ∧ expiredReply.isFatal = true)
    ∧ (run (loginAction { sampleLoginEnv with tokenReplies := [expiredReply] })
          (diskWith olderRecord)).1 = .error (.exit 1)
    ∧ (run (loginAction { sampleLoginEnv with tokenReplies := [expiredReply] })
          (diskWith olderRecord)).2.disk = diskWith olderRecord :=
  ⟨⟨rfl, Or.inr rfl, rfl⟩,
    (loginAction_poll_failure { sampleLoginEnv with tokenReplies := [expiredReply] }
      (diskWith olderRecord) sampleDevice [] expiredReply [] rfl (Or.inr rfl) rfl rfl
      (Or.inl (by decide)) rfl (by decide) (Or.inl rfl)).1,
    (loginAction_poll_failure { sampleLoginEnv with tokenReplies := [expiredReply] }
      (diskWith olderRecord) sampleDevice [] expiredReply [] rfl (Or.inr rfl) rfl rfl
      (Or.inl (by decide)) rfl (by decide) (Or.inl rfl)).2.1⟩

/-- C7, as the code has it. In every run of `loginAction` with a client id, no
declined re-authentication, a device-code answer, a poll trace of
`authorization_pending` answers followed by a payload whose access token is
non-empty, and a session lookup that returns (with a session, with an error or
with nothing), `loginAction` completes without a process exit, after one attempt
per answer, and its last act is the success message.  When creating the directory
and writing the file are permitted, the token file then holds the access token and
the scope of the payload, the token type of the payload or `"Bearer"` when that is
missing or empty, and the time of the call.  When creating the directory or
writing the file is not permitted, the warning "Failed to store authentication
token locally" is logged before the session lookup and the disk is what it was
before the run. -/
theorem loginAction_success (env : LoginEnv) (disk : Disk) (data : DeviceAuthorization)
    (pending : List (Reply TokenRecord)) (p : TokenRecord) (error : Option ApiError)
    (rest : List (Reply TokenRecord)) (session : Option Session)
    (sessionError : Option ApiError)
    (hclient : truthy (jsOr env.clientId env.CLIENT_ID) = true)
    (hreauth : storedToken disk = none ∨ env.shouldReauth = .yes)
    (hcreate : env.createAuthClientThrows = false)
    (hdevice : env.deviceCode = .returns (some data) none)
    (hopen : env.shouldOpen ≠ .yes ∨ env.openThrows = false)
    (htrace : env.tokenReplies = pending ++ .returns (some p) error :: rest)
    (hpending : ∀ r ∈ pending, r.isPending = true)
    (hp : truthy p.access_token = true)
    (hsession : env.session = .returns session sessionError) :
    ((run (loginAction env) disk).1 = .ok ()
      ∧ (run (loginAction env) disk).2.log.getLast? =
          some (.outro ("✅ Demo login successful! Logged in as " ++ displayName session))
      ∧ exits (run (loginAction env) disk).2.log = 0
      ∧ attempts (run (loginAction env) disk).2.log = pending.length + 1)
    ∧ (disk.mkdirOk = true → disk.writable = true →
        (run (loginAction env) disk).2.disk = { disk with file := some (.json
          { access_token := p.access_token
            token_type := jsOr p.token_type (some "Bearer")
            scope := p.scope
            created_at := some env.now }) }
        ∧ (run (loginAction env) disk).2.log.getLast? =
            some (.outro ("✅ Demo login successful! Logged in as " ++ displayName session)))
    ∧ (disk.mkdirOk = false ∨ disk.writable = false →
        (run (loginAction env) disk).2.disk = disk
        ∧ ∃ before, (run (loginAction env) disk).2.log = before
            ++ [.loggerWarn "Failed to store authentication token locally",
              .getSession ("Bearer " ++ jsStr p.access_token),
              .outro ("✅ Demo login successful! Logged in as "
                ++ displayName session)]) := by
  obtain ⟨pre, -, hpe, hpa, hrun⟩ :=
    loginAction_reaches_poll env disk data hclient hreauth hcreate hdevice hopen
  obtain ⟨added, -, hae, haa, hpoll⟩ :=
    awaitPollForToken_granted data.device_code (jsStr (jsOr env.clientId env.CLIENT_ID))
      (data.interval.getD 5) pending p error rest { disk := disk, log := pre } hpending hp
  by_cases hok : disk.mkdirOk = true ∧ disk.writable = true
  · obtain ⟨hmkdir, hwrite⟩ := hok
    have hres : run (loginAction env) disk
        = (.ok (),
          { disk := { disk with file := some (.json
              { access_token := p.access_token
                token_type := jsOr p.token_type (some "Bearer")
                scope := p.scope
                created_at := some env.now }) }
            log := pre ++ added ++ [.mkdir, .writeFile,
              .getSession ("Bearer " ++ jsStr p.access_token),
              .outro ("✅ Demo login successful! Logged in as " ++ displayName session)] }) := by
      rw [hrun]
      simp [Js.tryCatch, loginPoll, Js.bind, htrace, hpoll, storeToken_ok, hmkdir, hwrite,
        request, hsession, World.emit, Js.emit]
    rw [hres]
    refine ⟨⟨rfl, ?_, ?_, ?_⟩, fun _ _ => ⟨rfl, ?_⟩, fun hfail => ?_⟩
    · simp
    · show exits (pre ++ added ++ _) = 0
      rw [exits_append, exits_append, hpe, hae]
      simp [exits]
    · show attempts (pre ++ added ++ _) = pending.length + 1
      rw [attempts_append, attempts_append, hpa, haa]
      simp [attempts, Event.isAttempt]
    · simp
    · rcases hfail with h | h
      · rw [hmkdir] at h; cases h
      · rw [hwrite] at h; cases h
  · have hfail : disk.mkdirOk = false ∨ disk.writable = false := by
      by_cases h1 : disk.mkdirOk = true
      · by_cases h2 : disk.writable = true
        · exact absurd ⟨h1, h2⟩ hok
        · exact Or.inr (by simpa using h2)
      · exact Or.inl (by simpa using h1)
    have hres : run (loginAction env) disk
        = (.ok (),
          { disk := disk
            log := pre ++ added
              ++ (if disk.mkdirOk = true then [.mkdir, .writeFile] else [.mkdir])
              ++ [.loggerWarn "Failed to store authentication token locally",
                .getSession ("Bearer " ++ jsStr p.access_token),
                .outro ("✅ Demo login successful! Logged in as "
                  ++ displayName session)] }) := by
      rw [hrun]
      simp [Js.tryCatch, loginPoll, Js.bind, htrace, hpoll, storeToken_fail, hfail,
        request, hsession, World.emit, Js.emit]
    rw [hres]
    refine ⟨⟨rfl, ?_, ?_, ?_⟩, fun hm hw => ?_, fun _ => ⟨rfl, ?_⟩⟩
    · simp
    · show exits (pre ++ added ++ _ ++ _) = 0
      rw [exits_append, exits_append, exits_append, hpe, hae]
      split_ifs <;> simp [exits]
    · show attempts (pre ++ added ++ _ ++ _) = pending.length + 1
      rw [attempts_append, attempts_append, attempts_append, hpa, haa]
      split_ifs <;> simp [attempts, Event.isAttempt]
    · exact absurd ⟨hm, hw⟩ hok
    · exact ⟨pre ++ added
        ++ (if disk.mkdirOk = true then [.mkdir, .writeFile] else [.mkdir]), rfl⟩

theorem loginAction_success_witness :
    (truthy (jsOr sampleLoginEnv.clientId sampleLoginEnv.CLIENT_ID) = true
      ∧ (∀ r ∈ [pendingReply, pendingReply], r.isPending = true)
      ∧ truthy sampleToken.access_token = true
      ∧ emptyDisk.mkdirOk = true ∧ emptyDisk.writable = true)
    ∧ (run (loginAction sampleLoginEnv) emptyDisk).1 = .ok ()
    ∧ (run (loginAction sampleLoginEnv) emptyDisk).2.disk = { emptyDisk with file := some (.json
        { access_token := some "tok_abc"
          token_type := some "Bearer"
          scope := some "openid"
          created_at := some "2026-11-04T00:00:00.000Z" }) } :=
  ⟨⟨rfl, by decide, rfl, rfl, rfl⟩,
    (loginAction_success sampleLoginEnv emptyDisk sampleDevice [pendingReply, pendingReply]
      sampleToken none [] (some ⟨some ⟨some "Ada", none⟩⟩) none rfl (Or.inl rfl) rfl rfl
      (Or.inl (by decide)) rfl (by decide) rfl rfl).1.1,
    ((loginAction_success sampleLoginEnv emptyDisk sampleDevice [pendingReply, pendingReply]
      sampleToken none [] (some ⟨some ⟨some "Ada", none⟩⟩) none rfl (Or.inl rfl) rfl rfl
      (Or.inl (by decide)) rfl (by decide) rfl rfl).2.1 rfl rfl).1⟩

/-- C7 as stated fails: when the directory cannot be created the login reports
success and no record is persisted; a payload with an empty token type is stored
with the token type `"Bearer"`; a payload with an empty access token is not a
grant, the poller keeps polling and nothing is persisted. -/
theorem loginAction_success_counterexample :
    ((run (loginAction sampleLoginEnv) { emptyDisk with mkdirOk := false }).1 = .ok ()
      ∧ (run (loginAction sampleLoginEnv) { emptyDisk with mkdirOk := false }).2.disk.file
          = none)
    ∧ ((run (loginAction { sampleLoginEnv with
            tokenReplies := [pendingReply, pendingReply,
              .returns (some { sampleToken with token_type := some "" }) none] })
          emptyDisk).2.disk.file = some (.json
            { access_token := some "tok_abc"
              token_type := some "Bearer"
              scope := some "openid"
              created_at := some "2026-11-04T00:00:00.000Z" }))
    ∧ ((run (loginAction { sampleLoginEnv with
            tokenReplies := [pendingReply, pendingReply,
              .returns (some { sampleToken with access_token := some "" }) none] })
          emptyDisk).1 = .error .polling
      ∧ (run (loginAction { sampleLoginEnv with
            tokenReplies := [pendingReply, pendingReply,
              .returns (some { sampleToken with access_token := some "" }) none] })
          emptyDisk).2.disk.file = none) :=
  ⟨⟨rfl, rfl⟩, rfl, ⟨rfl, rfl⟩⟩

/-- C8, at the failing input. In the scenario of the specification, when the
session lookup that follows the storing of the token throws (the server cannot be
reached), `loginAction` logs "Login failed" and exits the process with code 1,
although the token is in the token file. -/
theorem loginAction_session_throws :
    (run (loginAction { sampleLoginEnv with session := .throws (some "fetch failed") })
        emptyDisk).1 = .error (.exit 1)
    ∧ (run (loginAction { sampleLoginEnv with session := .throws (some "fetch failed") })
        emptyDisk).2.disk.file = some (.json
          { access_token := some "tok_abc"
            token_type := some "Bearer"
            scope := some "openid"
            created_at := some "2026-11-04T00:00:00.000Z" })
    ∧ (run (loginAction { sampleLoginEnv with session := .throws (some "fetch failed") })
        emptyDisk).2.log.drop 11 =
          [.mkdir, .writeFile, .getSession "Bearer tok_abc",
            .loggerError "Login failed: fetch failed", .processExit 1] :=
  ⟨rfl, rfl, rfl⟩

/-! ## logoutAction -/

theorem storedToken_eq_some (disk : Disk) (tok : TokenRecord)
    (h : storedToken disk = some tok) :
    disk.file = some (.json tok) ∧ disk.readable = true := by
  rcases disk with ⟨file, readable, mkdirOk, writable, removable⟩
  rcases file with _ | (v | _) <;> cases readable <;> simp_all [storedToken]

theorem logoutUserName_eq (env : LogoutEnv) (tokenData : TokenRecord) (disk : Disk) :
    logoutUserName env (jsStr (jsOr env.serverUrl (some DEMO_URL))) tokenData
        { disk := disk, log := [.readFile] }
      = (.ok (logoutShownName env), { disk := disk, log := logoutLookup env tokenData }) := by
  rcases env with ⟨url, force, throws, session, answer, signOut⟩
  cases throws
  · rcases session with ⟨data, error⟩ | m
    · cases h : data.bind Session.user <;>
        simp [logoutUserName, Js.tryCatch, Js.bind, Js.pure, createAuthClient, request,
          World.emit, h, logoutShownName, logoutLookup]
    · simp [logoutUserName, Js.tryCatch, Js.bind, Js.pure, createAuthClient, request,
        World.emit, logoutShownName, logoutLookup]
  · simp [logoutUserName, Js.tryCatch, Js.bind, Js.pure, createAuthClient, World.emit,
      logoutShownName, logoutLookup]

theorem logoutTry_eq (env : LogoutEnv) (serverUrl userName : String)
    (tokenData : TokenRecord) (w : World) (text : FileText)
    (hfile : w.disk.file = some text) :
    logoutTry env serverUrl userName tokenData w
      = (if env.createAuthClientThrows = true then .error (.exit 1) else .ok (),
          { disk := if w.disk.removable = true then { w.disk with file := none } else w.disk
            log := w.log ++
              (if env.createAuthClientThrows = true then
                [.createAuthClient serverUrl,
                  .loggerError "Logout failed: createAuthClient failed", .unlink, .processExit 1]
              else
                [.createAuthClient serverUrl,
                  .signOut ("Bearer " ++ jsStr tokenData.access_token), .unlink,
                  .outro (if w.disk.removable = true
                    then "✅ Successfully logged out " ++ userName
                    else "⚠️  Logout completed with warnings")]) }) := by
  rcases env with ⟨url, force, throws, session, answer, signOut⟩
  rcases w with ⟨⟨file, readable, mkdirOk, writable, removable⟩, log⟩
  simp only at hfile
  subst hfile
  cases throws <;> cases removable
  · rcases signOut with ⟨data, error⟩ | m <;>
      simp [logoutTry, Js.tryCatch, Js.bind, Js.pure, createAuthClient, request, World.emit,
        deleteStoredToken, fsUnlink, Js.emit]
  · rcases signOut with ⟨data, error⟩ | m <;>
      simp [logoutTry, Js.tryCatch, Js.bind, Js.pure, createAuthClient, request, World.emit,
        deleteStoredToken, fsUnlink, Js.emit]
  · simp [logoutTry, Js.tryCatch, Js.bind, Js.pure, createAuthClient, World.emit,
      deleteStoredToken, fsUnlink, Js.emit, Js.exit, errMessage]
  · simp [logoutTry, Js.tryCatch, Js.bind, Js.pure, createAuthClient, World.emit,
      deleteStoredToken, fsUnlink, Js.emit, Js.exit, errMessage]

/-- C5, as the code has it, for every initial state in which a token record is
stored and for every outcome of the session lookup and of the sign-out call.
When the logout is forced or confirmed by the user, `logoutAction` signs out,
calls `deleteStoredToken` and ends with "Successfully logged out" when the file
was removed and with "Logout completed with warnings" when it could not be; when
the auth client cannot be created it logs "Logout failed", still calls
`deleteStoredToken` and exits with code 1.  In these runs, if the file may be
removed it is gone afterwards and `getStoredToken()` returns `null`; if it may not
be removed the disk is what it was and `getStoredToken()` returns the record.
When the logout is not forced and the user answers no or cancels the prompt, the
run ends with "Logout cancelled" and `process.exit(0)`, without sign-out or
deletion, and `getStoredToken()` still returns the record. -/
theorem logoutAction_removes_token (env : LogoutEnv) (disk : Disk) (tok : TokenRecord)
    (hstored : storedToken disk = some tok) :
    (env.force = true ∨ env.shouldLogout = .yes →
      run (logoutAction env) disk
        = (if env.createAuthClientThrows = true then .error (.exit 1) else .ok (),
            { disk := if disk.removable = true then { disk with file := none } else disk
              log := logoutLookup env tok
                ++ (if env.force = true then [] else [logoutPrompt env])
                ++ (if env.createAuthClientThrows = true then
                    [.createAuthClient (jsStr (jsOr env.serverUrl (some DEMO_URL))),
                      .loggerError "Logout failed: createAuthClient failed", .unlink,
                      .processExit 1]
                  else
                    [.createAuthClient (jsStr (jsOr env.serverUrl (some DEMO_URL))),
                      .signOut ("Bearer " ++ jsStr tok.access_token), .unlink,
                      .outro (if disk.removable = true
                        then "✅ Successfully logged out " ++ logoutShownName env
                        else "⚠️  Logout completed with warnings")]) })
      ∧ (disk.removable = true →
          (run (logoutAction env) disk).2.disk.file = none
          ∧ (run getStoredToken (run (logoutAction env) disk).2.disk).1 = .ok none)
      ∧ (disk.removable = false →
          (run (logoutAction env) disk).2.disk = disk
          ∧ (run getStoredToken (run (logoutAction env) disk).2.disk).1 = .ok (some tok)))
    ∧ (env.force = false → env.shouldLogout = .no ∨ env.shouldLogout = .cancelled →
      run (logoutAction env) disk
        = (.error (.exit 0),
            { disk := disk
              log := logoutLookup env tok
                ++ [logoutPrompt env, .cancel "Logout cancelled", .processExit 0] })
      ∧ (run getStoredToken (run (logoutAction env) disk).2.disk).1 = .ok (some tok)) := by
  obtain ⟨hfile, -⟩ := storedToken_eq_some disk tok hstored
  have hname := logoutUserName_eq env tok disk
  refine ⟨fun hconfirm => ?_, fun hforce hdecline => ?_⟩
  · have hres : run (logoutAction env) disk
        = (if env.createAuthClientThrows = true then .error (.exit 1) else .ok (),
            { disk := if disk.removable = true then { disk with file := none } else disk
              log := logoutLookup env tok
                ++ (if env.force = true then [] else [logoutPrompt env])
                ++ (if env.createAuthClientThrows = true then
                    [.createAuthClient (jsStr (jsOr env.serverUrl (some DEMO_URL))),
                      .loggerError "Logout failed: createAuthClient failed", .unlink,
                      .processExit 1]
                  else
                    [.createAuthClient (jsStr (jsOr env.serverUrl (some DEMO_URL))),
                      .signOut ("Bearer " ++ jsStr tok.access_token), .unlink,
                      .outro (if disk.removable = true
                        then "✅ Successfully logged out " ++ logoutShownName env
                        else "⚠️  Logout completed with warnings")]) }) := by
      by_cases hf : env.force = true
      · simp only [run, logoutAction, js_bind_eq, Js.bind, getStoredToken_eq, hstored,
          World.emit, List.nil_append, hname, hf, Bool.not_true, Bool.false_eq_true,
          ↓reduceIte]
        refine (logoutTry_eq env _ _ tok _ (.json tok) hfile).trans ?_
        simp
      · have hy : env.shouldLogout = .yes := by
          rcases hconfirm with h | h
          · exact absurd h hf
          · exact h
        have hff : env.force = false := by simpa using hf
        simp only [run, logoutAction, js_bind_eq, Js.bind, getStoredToken_eq, hstored,
          World.emit, List.nil_append, hname, hff, Bool.not_false, ↓reduceIte, confirm, hy,
          ne_eq, not_true_eq_false]
        refine (logoutTry_eq env _ _ tok _ (.json tok) hfile).trans ?_
        simp [logoutPrompt]
    refine ⟨hres, fun hrem => ?_, fun hrem => ?_⟩
    · rw [hres]
      simp [hrem, run, getStoredToken_eq, storedToken]
    · rw [hres]
      simp [hrem, run, getStoredToken_eq, hstored]
  · have hne : env.shouldLogout ≠ .yes := by
      rcases hdecline with h | h <;> rw [h] <;> decide
    have hres : run (logoutAction env) disk
        = (.error (.exit 0),
            { disk := disk
              log := logoutLookup env tok
                ++ [logoutPrompt env, .cancel "Logout cancelled", .processExit 0] }) := by
      simp [run, logoutAction, Js.bind, getStoredToken_eq, hstored, World.emit, hname, hforce,
        confirm, hne, logoutPrompt, Js.emit, Js.exit]
    refine ⟨hres, ?_⟩
    rw [hres]
    simp [run, getStoredToken_eq, hstored]

theorem logoutAction_removes_token_witness :
    (storedToken (diskWith sampleToken) = some sampleToken
      ∧ (({ sampleLogoutEnv with force := true, signOut := .throws (some "fetch failed") }
            : LogoutEnv).force = true
          ∨ ({ sampleLogoutEnv with force := true, signOut := .throws (some "fetch failed") }
            : LogoutEnv).shouldLogout = .yes)
      ∧ (diskWith sampleToken).removable = true)
    ∧ (run (logoutAction
          { sampleLogoutEnv with force := true, signOut := .throws (some "fetch failed") })
        (diskWith sampleToken)).2.disk.file = none :=
  ⟨⟨rfl, Or.inl rfl, rfl⟩,
    (((logoutAction_removes_token
      { sampleLogoutEnv with force := true, signOut := .throws (some "fetch failed") }
      (diskWith sampleToken) sampleToken rfl).1 (Or.inl rfl)).2.1 rfl).1⟩

/-- C5 as stated fails: with a stored token, a logout that the user declines
exits with code 0 and the token is still returned by `getStoredToken`; a forced
logout on a token file that may not be removed completes and the token is still
there. -/
theorem logoutAction_keeps_token_counterexample :
    (storedToken (diskWith sampleToken) = some sampleToken
      ∧ (run (logoutAction sampleLogoutEnv) (diskWith sampleToken)).1 = .error (.exit 0)
      ∧ (run getStoredToken
          (run (logoutAction sampleLogoutEnv) (diskWith sampleToken)).2.disk).1
            = .ok (some sampleToken))
    ∧ (storedToken { diskWith sampleToken with removable := false } = some sampleToken
      ∧ (run (logoutAction { sampleLogoutEnv with force := true })
          { diskWith sampleToken with removable := false }).1 = .ok ()
      ∧ (run getStoredToken
          (run (logoutAction { sampleLogoutEnv with force := true })
            { diskWith sampleToken with removable := false }).2.disk).1
            = .ok (some sampleToken)) :=
  ⟨⟨rfl, rfl, rfl⟩, ⟨rfl, rfl, rfl⟩⟩

/-- C11. In every run of `loginAction` in which a token record is already stored
and the user, asked whether to log in again (which supposes a client id), answers
no or cancels the prompt, the run is: reading the token file, the prompt, the
message "Login cancelled", `process.exit(0)`.  No auth client is created, no
request is sent (no device-code request, no token poll, no session lookup), the
disk is what it was, and `getStoredToken()` still returns the same record. -/
theorem loginAction_reauth_declined (env : LoginEnv) (disk : Disk) (tok : TokenRecord)
    (hclient : truthy (jsOr env.clientId env.CLIENT_ID) = true)
    (hstored : storedToken disk = some tok)
    (hdecline : env.shouldReauth = .no ∨ env.shouldReauth = .cancelled) :
    run (loginAction env) disk = (.error (.exit 0),
      { disk := disk
        log := [.readFile, .confirm "You\x27re already logged in. Do you want to log in again?",
          .cancel "Login cancelled", .processExit 0] })
    ∧ (∀ e ∈ (run (loginAction env) disk).2.log,
        e.isNetwork = false ∧ e.isStoreWrite = false)
    ∧ (run getStoredToken (run (loginAction env) disk).2.disk).1 = .ok (some tok) := by
  have hne : env.shouldReauth ≠ .yes := by
    rcases hdecline with h | h <;> rw [h] <;> decide
  have h : run (loginAction env) disk = (.error (.exit 0),
      { disk := disk
        log := [.readFile, .confirm "You\x27re already logged in. Do you want to log in again?",
          .cancel "Login cancelled", .processExit 0] }) := by
    simp [run, loginAction, hclient, Js.bind, getStoredToken_eq, hstored, World.emit, confirm,
      hne, Js.emit, Js.exit]
  refine ⟨h, ?_, ?_⟩
  · rw [h]
    intro e he
    simp at he
    rcases he with rfl | rfl | rfl | rfl <;> simp [Event.isNetwork, Event.isStoreWrite]
  · rw [h]
    simp [run, getStoredToken_eq, hstored]

theorem loginAction_reauth_declined_witness :
    (truthy (jsOr ({ sampleLoginEnv with shouldReauth := .cancelled } : LoginEnv).clientId
        ({ sampleLoginEnv with shouldReauth := .cancelled } : LoginEnv).CLIENT_ID) = true
      ∧ storedToken (diskWith olderRecord) = some olderRecord
      ∧ (({ sampleLoginEnv with shouldReauth := .cancelled } : LoginEnv).shouldReauth = .no
        ∨ ({ sampleLoginEnv with shouldReauth := .cancelled } : LoginEnv).shouldReauth
          = .cancelled))
    ∧ run (loginAction { sampleLoginEnv with shouldReauth := .cancelled })
        (diskWith olderRecord) = (.error (.exit 0),
      { disk := diskWith olderRecord
        log := [.readFile, .confirm "You\x27re already logged in. Do you want to log in again?",
          .cancel "Login cancelled", .processExit 0] }) :=
  ⟨⟨rfl, rfl, Or.inr rfl⟩,
    (loginAction_reauth_declined { sampleLoginEnv with shouldReauth := .cancelled }
      (diskWith olderRecord) olderRecord rfl rfl (Or.inr rfl)).1⟩

/-! ## The cadence of the poller -/

theorem pollLoop_cadence (dc ci : String) (tr : List (Reply TokenRecord)) :
    ∀ s : PollState, (∀ r ∈ tr, r.keepsPolling = true) →
    ∃ s1, (∀ rest, pollLoop dc ci s (tr ++ rest) = pollLoop dc ci s1 rest)
      ∧ s1.log = s.log ++ cadence dc ci s.pollingInterval tr := by
  induction tr with
  | nil =>
    intro s _
    exact ⟨s, fun _ => rfl, by simp [cadence]⟩
  | cons r tr ih =>
    intro s h
    obtain ⟨s1, h1, hi1, hl1⟩ := poll_keeps dc ci s r (h r (List.mem_cons_self _ _))
    obtain ⟨s2, h2, hl2⟩ := ih s1 (fun x hx => h x (List.mem_cons_of_mem _ hx))
    refine ⟨s2, ?_, ?_⟩
    · intro rest
      simp only [List.cons_append, pollLoop, h1]
      exact h2 rest
    · have hn : (if r.isSlowDown = true then s.pollingInterval + 5 else s.pollingInterval)
          = s1.pollingInterval := by
        rw [hi1]
        split_ifs <;> omega
      rw [hl2, hl1]
      simp [cadence, hn]

theorem cadence_mem (dc ci : String) (tr : List (Reply TokenRecord)) :
    ∀ (i : Nat) (e : Event), e ∈ cadence dc ci i tr →
      e.isAttempt = true ∨ e.isWait = true := by
  induction tr with
  | nil => intro i e he; simp [cadence] at he
  | cons r tr ih =>
    intro i e he
    simp only [cadence, List.mem_cons] at he
    rcases he with rfl | rfl | he
    · exact Or.inl rfl
    · exact Or.inr rfl
    · exact ih _ e he

theorem cadence_length (dc ci : String) (tr : List (Reply TokenRecord)) :
    ∀ i : Nat, (cadence dc ci i tr).length = 2 * tr.length := by
  induction tr with
  | nil => intro i; rfl
  | cons r tr ih =>
    intro i
    simp only [cadence, List.length_cons, ih]
    omega

theorem cadence_getElem (dc ci : String) (tr : List (Reply TokenRecord)) :
    ∀ (i k : Nat), k < tr.length →
      (cadence dc ci i tr)[2 * k]? = some (.deviceToken dc ci)
      ∧ (cadence dc ci i tr)[2 * k + 1]?
          = some (.setTimeout ((i + 5 * (tr.take (k + 1)).countP Reply.isSlowDown) * 1000)) := by
  induction tr with
  | nil => intro i k hk; simp at hk
  | cons r tr ih =>
    intro i k hk
    cases k with
    | zero =>
      refine ⟨rfl, ?_⟩
      simp only [cadence, List.take_succ_cons, List.take_zero, List.countP_cons,
        List.countP_nil]
      by_cases hr : r.isSlowDown = true <;> simp [hr]
    | succ k =>
      have hk1 : k < tr.length := by simpa using hk
      obtain ⟨h0, h1⟩ := ih (if r.isSlowDown = true then i + 5 else i) k hk1
      have e0 : 2 * (k + 1) = (2 * k) + 1 + 1 := by omega
      have e1 : 2 * (k + 1) + 1 = (2 * k + 1) + 1 + 1 := by omega
      refine ⟨?_, ?_⟩
      · rw [e0]
        simp only [cadence, List.getElem?_cons_succ]
        exact h0
      · rw [e1]
        simp only [cadence, List.getElem?_cons_succ]
        rw [h1, List.take_succ_cons, List.countP_cons]
        by_cases hr : r.isSlowDown = true
        · simp [hr]
          omega
        · simp [hr]

theorem poll_log (dc ci : String) (s : PollState) (r : Reply TokenRecord) :
    ∃ tail, (poll dc ci s r).state.log = s.log ++ .deviceToken dc ci :: tail := by
  rcases r with ⟨data, error⟩ | m
  · rcases data with _ | d <;> rcases error with _ | e
    all_goals
      simp only [poll, pollError]
      repeat' split
      all_goals
        simp only [PollStep.state, schedule, slowDown, spinnerStop, pollSpinner,
          PollState.emit]
        exact ⟨_, List.append_assoc _ _ _⟩
  · simp only [poll, PollStep.state, spinnerStop, pollSpinner, PollState.emit]
    exact ⟨_, List.append_assoc _ _ _⟩

theorem pollLoop_log (dc ci : String) (rs : List (Reply TokenRecord)) :
    ∀ s : PollState, ∃ tail, (pollLoop dc ci s rs).state.log = s.log ++ tail := by
  induction rs with
  | nil => intro s; exact ⟨[], by simp [pollLoop, PollResult.state]⟩
  | cons r rs ih =>
    intro s
    obtain ⟨t, ht⟩ := poll_log dc ci s r
    cases hp : poll dc ci s r with
    | resolved d s1 =>
      rw [hp] at ht
      exact ⟨_, by simpa [pollLoop, hp, PollResult.state, PollStep.state] using ht⟩
    | exited c s1 =>
      rw [hp] at ht
      exact ⟨_, by simpa [pollLoop, hp, PollResult.state, PollStep.state] using ht⟩
    | scheduled s1 =>
      rw [hp] at ht
      obtain ⟨t2, ht2⟩ := ih s1
      refine ⟨(.deviceToken dc ci :: t) ++ t2, ?_⟩
      simp only [pollLoop, hp]
      rw [ht2]
      simp only [PollStep.state] at ht
      rw [ht, List.append_assoc]

theorem pollForToken_cadence (dc ci : String) (i : Nat) (trace : List (Reply TokenRecord))
    (h : ∀ r ∈ trace, r.keepsPolling = true) :
    ∃ s, pollForToken dc ci i trace [] = .polling s
      ∧ (∀ rest, pollForToken dc ci i (trace ++ rest) [] = pollLoop dc ci s rest)
      ∧ s.log = .setTimeout (i * 1000) :: cadence dc ci i trace := by
  obtain ⟨s, hs, hl⟩ := pollLoop_cadence dc ci trace (schedule (pollInit i [])) h
  refine ⟨s, ?_, fun rest => hs rest, ?_⟩
  · have := hs []
    simpa [pollForToken, pollLoop] using this
  · rw [hl]
    simp [schedule, pollInit, PollState.emit]

theorem cadence_last (dc ci : String) (i : Nat) (trace : List (Reply TokenRecord)) :
    (Event.setTimeout (i * 1000) :: cadence dc ci i trace).getLast?
      = some (.setTimeout ((i + 5 * trace.countP Reply.isSlowDown) * 1000)) := by
  rw [List.getLast?_eq_getElem?, List.length_cons, cadence_length]
  cases hn : trace.length with
  | zero =>
    have : trace = [] := List.length_eq_zero.mp hn
    subst this
    simp
  | succ n =>
    have e : 2 * (n + 1) + 1 - 1 = (2 * n + 1) + 1 := by omega
    rw [e, List.getElem?_cons_succ,
      (cadence_getElem dc ci trace i n (by omega)).2, ← hn, List.take_length]

/-- C12. While the answers keep the poller polling, its log is the wait of the
initial interval followed by the cadence of the specification: each attempt is the
event right after a wait, and that wait is a thousand times the interval as it
stands after the answers received so far (the initial interval for attempt 1, five
seconds more for each `slow_down` already received, the one just received
included).  Whatever the next answer is, the attempt that receives it comes right
after the last of these waits. -/
theorem pollForToken_waits_before_attempts (deviceCode clientId : String)
    (initialInterval : Nat) (trace : List (Reply TokenRecord))
    (h : ∀ r ∈ trace, r.keepsPolling = true) :
    ∃ s, pollForToken deviceCode clientId initialInterval trace [] = .polling s
      ∧ s.log = .setTimeout (initialInterval * 1000)
          :: cadence deviceCode clientId initialInterval trace
      ∧ s.log.length = 2 * trace.length + 1
      ∧ (∀ k, k ≤ trace.length → s.log[2 * k]? = some (.setTimeout
          ((initialInterval + 5 * (trace.take k).countP Reply.isSlowDown) * 1000)))
      ∧ (∀ k, k < trace.length → s.log[2 * k + 1]? = some (.deviceToken deviceCode clientId))
      ∧ (∀ r after, ∃ tail,
          (pollForToken deviceCode clientId initialInterval (trace ++ r :: after) []).state.log
            = s.log ++ .deviceToken deviceCode clientId :: tail) := by
  obtain ⟨s, hpoll, hs, hlog⟩ :=
    pollForToken_cadence deviceCode clientId initialInterval trace h
  refine ⟨s, hpoll, hlog, ?_, ?_, ?_, ?_⟩
  · rw [hlog, List.length_cons, cadence_length]
  · intro k hk
    rw [hlog]
    cases k with
    | zero => simp
    | succ k =>
      have e : 2 * (k + 1) = (2 * k + 1) + 1 := by omega
      rw [e, List.getElem?_cons_succ]
      exact (cadence_getElem deviceCode clientId trace initialInterval k (by omega)).2
  · intro k hk
    rw [hlog, List.getElem?_cons_succ]
    exact (cadence_getElem deviceCode clientId trace initialInterval k hk).1
  · intro r after
    obtain ⟨t, ht⟩ := poll_log deviceCode clientId s r
    rw [hs (r :: after)]
    cases hp : poll deviceCode clientId s r with
    | resolved d s1 =>
      rw [hp] at ht
      exact ⟨t, by simpa [pollLoop, hp, PollResult.state, PollStep.state] using ht⟩
    | exited c s1 =>
      rw [hp] at ht
      exact ⟨t, by simpa [pollLoop, hp, PollResult.state, PollStep.state] using ht⟩
    | scheduled s1 =>
      rw [hp] at ht
      obtain ⟨t2, ht2⟩ := pollLoop_log deviceCode clientId after s1
      refine ⟨t ++ t2, ?_⟩
      simp only [pollLoop, hp]
      rw [ht2]
      simp only [PollStep.state] at ht
      rw [ht]
      simp

theorem pollForToken_waits_before_attempts_witness :
    (∀ r ∈ [pendingReply, slowDownReply], r.keepsPolling = true)
    ∧ ∃ s, pollForToken "D1" "cid" 5 [pendingReply, slowDownReply] [] = .polling s
      ∧ s.log = [.setTimeout 5000, .deviceToken "D1" "cid", .setTimeout 5000,
          .deviceToken "D1" "cid", .setTimeout 10000] := by
  refine ⟨by decide, ?_⟩
  obtain ⟨s, hs, hl, -⟩ :=
    pollForToken_waits_before_attempts "D1" "cid" 5 [pendingReply, slowDownReply] (by decide)
  exact ⟨s, hs, by rw [hl]; rfl⟩

/-- C13. An answer that carries neither an access token nor an error object does
to the poller what `authorization_pending` does: `poll` ends in the same scheduled
state, with the interval unchanged and one more wait of that interval in the log.
On every finite trace made only of such answers, of `authorization_pending` and of
`slow_down`, the poller has made one attempt per answer and is still polling: it
has neither resolved nor exited, and its last event is a scheduled wait. -/
theorem pollForToken_silent_keeps_polling (deviceCode clientId : String)
    (initialInterval : Nat) (trace : List (Reply TokenRecord))
    (h : ∀ r ∈ trace, r.isSilent = true ∨ r.isPending = true ∨ r.isSlowDown = true) :
    (∀ (s : PollState) (r pending : Reply TokenRecord), r.isSilent = true →
        pending.isPending = true →
        poll deviceCode clientId s r = poll deviceCode clientId s pending
        ∧ ∃ s1, poll deviceCode clientId s r = .scheduled s1
          ∧ s1.pollingInterval = s.pollingInterval
          ∧ s1.log = s.log ++ [.deviceToken deviceCode clientId,
              .setTimeout (s.pollingInterval * 1000)])
    ∧ ∃ s, pollForToken deviceCode clientId initialInterval trace [] = .polling s
      ∧ attempts s.log = trace.length
      ∧ waits s.log = trace.length + 1
      ∧ exits s.log = 0
      ∧ Event.resolve ∉ s.log
      ∧ s.log.getLast? = some (.setTimeout (s.pollingInterval * 1000)) := by
  have hk : ∀ r ∈ trace, r.keepsPolling = true := by
    intro r hr
    rcases h r hr with h1 | h1 | h1 <;> simp [Reply.keepsPolling, h1]
  refine ⟨?_, ?_⟩
  · intro s r pending hr hp
    rw [poll_silent deviceCode clientId s r hr, poll_pending deviceCode clientId s pending hp]
    refine ⟨rfl, _, rfl, ?_, ?_⟩ <;>
      simp [schedule, requesting, pollSpinner, PollState.emit]
  · obtain ⟨s, hs, -, hlog⟩ :=
      pollForToken_cadence deviceCode clientId initialInterval trace hk
    obtain ⟨s1, h1, hi, ha, hw, he, -⟩ :=
      pollForToken_keeps deviceCode clientId initialInterval trace [] hk
    have hs1 : pollForToken deviceCode clientId initialInterval trace [] = .polling s1 := by
      have := h1 []
      simpa [pollLoop] using this
    have heq : s1 = s := by
      rw [hs] at hs1
      injection hs1 with h2
      exact h2.symm
    subst heq
    refine ⟨s1, hs, ?_, ?_, ?_, ?_, ?_⟩
    · simpa [attempts] using ha
    · simpa [waits] using hw
    · simpa [exits] using he
    · rw [hlog]
      intro hmem
      rcases List.mem_cons.mp hmem with h2 | h2
      · cases h2
      · rcases cadence_mem deviceCode clientId trace initialInterval _ h2 with h3 | h3 <;>
          simp [Event.isAttempt, Event.isWait] at h3
    · rw [hlog, hi]
      exact cadence_last deviceCode clientId initialInterval trace

theorem pollForToken_silent_keeps_polling_witness :
    (∀ r ∈ [Reply.returns none none, pendingReply, Reply.returns none none],
        r.isSilent = true ∨ r.isPending = true ∨ r.isSlowDown = true)
    ∧ ∃ s, pollForToken "D1" "cid" 5
          [Reply.returns none none, pendingReply, Reply.returns none none] [] = .polling s
      ∧ attempts s.log = 3
      ∧ exits s.log = 0 := by
  refine ⟨by decide, ?_⟩
  obtain ⟨s, hs, ha, -, he, -⟩ :=
    (pollForToken_silent_keeps_polling "D1" "cid" 5
      [Reply.returns none none, pendingReply, Reply.returns none none] (by decide)).2
  exact ⟨s, hs, ha, he⟩

end RocketCli
